import Mathlib

/-!
# PCB editor frame: command dispatch, tool selection and active-layer switching

A shallow embedding of `PCB_EDIT_FRAME::Process_Special_Functions`,
`PCB_EDIT_FRAME::SwitchLayer` and `PCB_EDIT_FRAME::OnSelectTool` from `pcbnew/edit.cpp`.

The frame is a record of the fields the functions read and write.  Calls into
collaborators whose code lives elsewhere (the canvas, dialogs, the board tools) are
recorded, in call order, in the `trace` field.  Identifier constants and the layer
enumeration are declared in headers outside these sources, so they are parameters
(`CommandIds`, `ToolIds`, `LayerIds`) and every theorem holds for every value of them.
-/

namespace PcbEdit

/-! ## Parameters: identifier constants and the layer enumeration -/

/-- Command identifiers named by the dispatcher.  Their numeric values come from
`wx/defs.h`, `id.h` and `pcbnew_id.h`. -/
structure CommandIds where
  wxID_CUT : Int
  wxID_COPY : Int
  ID_TOOLBARH_PCB_SELECT_LAYER : Int
  ID_AUX_TOOLBAR_PCB_SELECT_LAYER_PAIR : Int
  ID_OPEN_MODULE_EDITOR : Int
  ID_OPEN_MODULE_VIEWER : Int
  ID_PCB_GLOBAL_DELETE : Int
  ID_DRC_CONTROL : Int
  ID_GET_NETLIST : Int
  ID_MENU_PCB_CLEAN : Int
  ID_MENU_PCB_UPDATE_FOOTPRINTS : Int
  ID_MENU_PCB_EXCHANGE_FOOTPRINTS : Int
  ID_MENU_PCB_SWAP_LAYERS : Int
  ID_MENU_ARCHIVE_MODULES_IN_LIBRARY : Int
  ID_MENU_CREATE_LIBRARY_AND_ARCHIVE_MODULES : Int
  ID_GEN_IMPORT_GRAPHICS_FILE : Int
  ID_NO_TOOL_SELECTED : Int

/-- The part of the `PCB_LAYER_ID` enumeration that `edit.cpp` uses: the two outer
copper layers, the copper test, and the conversion from a selector entry to a layer.
A layer is its enumerator value, an `int`. -/
structure LayerIds where
  F_Cu : Int
  B_Cu : Int
  IsCopperLayer : Int → Bool
  ToLAYER_ID : Int → Int

/-- Tool-button identifiers and stock cursors named by `OnSelectTool`.  Their numeric
values come from `id.h`, `pcbnew_id.h` and the wxWidgets headers; `translate` is the
message translation written `_( ... )` in the source. -/
structure ToolIds where
  ID_ZOOM_SELECTION : Int
  ID_TRACK_BUTT : Int
  ID_PCB_ZONES_BUTT : Int
  ID_PCB_KEEPOUT_BUTT : Int
  ID_PCB_TARGET_BUTT : Int
  ID_PCB_PLACE_OFFSET_COORD_BUTT : Int
  ID_PCB_PLACE_GRID_COORD_BUTT : Int
  ID_PCB_ADD_LINE_BUTT : Int
  ID_PCB_ARC_BUTT : Int
  ID_PCB_CIRCLE_BUTT : Int
  ID_PCB_ADD_TEXT_BUTT : Int
  ID_COMPONENT_BUTT : Int
  ID_PCB_DIMENSION_BUTT : Int
  ID_PCB_DELETE_ITEM_BUTT : Int
  ID_PCB_HIGHLIGHT_BUTT : Int
  ID_LOCAL_RATSNEST_BUTT : Int
  ID_PCB_DRAW_VIA_BUTT : Int
  ID_PCB_MEASUREMENT_TOOL : Int
  wxCURSOR_MAGNIFIER : Int
  wxCURSOR_PENCIL : Int
  wxCURSOR_QUESTION_ARROW : Int
  wxCURSOR_HAND : Int
  wxCURSOR_BULLSEYE : Int
  wxCURSOR_DEFAULT : Int
  translate : String → String

/-- Window kinds handed to `Kiway().Player`. -/
inductive FRAME_T where
  | FRAME_PCB
  | FRAME_PCB_MODULE_EDITOR
  | FRAME_PCB_MODULE_VIEWER
  deriving DecidableEq, Repr

/-- A live sub-window: its kind and whether it is iconized. -/
structure PlayerFrame where
  kind : FRAME_T
  iconized : Bool
  deriving DecidableEq, Repr

/-- Calls into collaborators, recorded in the order they are made.  A window is named
by its handle, the position of the window in the list of live windows. -/
inductive Effect where
  | CrossHairOff
  | CrossHairOn
  | SetIgnoreMouseEvents (ignore : Bool)
  | CallEndMouseCapture
  | Refresh
  | CreateWindow (kind : FRAME_T)
  | Zoom_Automatique (handle : Nat)
  | Iconize (handle : Nat) (iconize : Bool)
  | Raise (handle : Nat)
  | SetFocus (handle : Nat)
  | PushPreferences (handle : Nat)
  | InstallPcbGlobalDeleteFrame
  | ShowDRCDialog
  | InstallNetlistFrame
  | SelectCopperLayerPair
  | Clean_Pcb
  | InstallExchangeModuleFrame (updateMode : Bool) (selectedMode : Bool)
  | Swap_Layers
  | ArchiveModulesOnBoard (storeInNewLib : Bool)
  | InvokeDialogImportGfxBoard
  | wxLogDebug (id : Int)
  | EndMouseCapture
  | Compile_Ratsnest
  | DisplayInfoMessage (msg : String)
  deriving DecidableEq, Repr

/-- The state of the editor frame read and written by the two functions. -/
structure FrameState where
  /-- Result of `GetToolId()`. -/
  m_toolId : Int
  m_lastDrawToolId : Int
  /-- Result of `GetActiveLayer()`. -/
  activeLayer : Int
  /-- Result of `m_canvas->IsMouseCaptured()`.  The frame functions only read it; it is
  written by the canvas. -/
  mouseCaptured : Bool
  /-- Result of `GetBoard()->GetCopperLayerCount()`. -/
  copperLayerCount : Int
  /-- Field `displ_opts->m_ContrastModeDisplay`. -/
  m_ContrastModeDisplay : Bool
  /-- Result of `m_SelLayerBox->GetLayerSelection()`. -/
  layerSelection : Int
  /-- Live sub-windows known to the window manager. -/
  players : List PlayerFrame
  /-- Handle of the sub-window holding the input focus, if one does. -/
  focus : Option Nat
  /-- Collaborator calls made so far, oldest first. -/
  trace : List Effect
  /-- Cursor glyph handed to the last `SetToolID`. -/
  m_cursor : Int
  /-- Status-line hint handed to the last `SetToolID`. -/
  m_toolMsg : String
  /-- Result of `m_canvas->GetDefaultCursor()`. -/
  defaultCursor : Int
  /-- Field `Settings().m_legacyDrcOn`. -/
  m_legacyDrcOn : Bool
  /-- Field `displ_opts->m_DisplayZonesMode`. -/
  m_DisplayZonesMode : Int
  deriving DecidableEq, Repr

/-- Record one collaborator call. -/
def FrameState.emit (s : FrameState) (e : Effect) : FrameState :=
  { s with trace := s.trace ++ [e] }

/-- The collaborator calls made between state `s` and a later state `t`. -/
def emitted (s t : FrameState) : List Effect :=
  t.trace.drop s.trace.length

/-! ## Helpers declared outside `edit.cpp` -/

/-- Modelled from the spec: `SetToolID` (declared in the draw-frame base class) is the
tool activation; it sets the active tool id, the cursor glyph and the status-line hint
together. -/
def SetToolID (s : FrameState) (aId : Int) (aCursor : Int) (aToolMsg : String) : FrameState :=
  { s with m_toolId := aId, m_cursor := aCursor, m_toolMsg := aToolMsg }

/-- Modelled from the spec: `SetNoToolSelected` (declared in the draw-frame base class)
resets the tool state to "no tool selected": the idle tool id with the default cursor
and an empty hint. -/
def SetNoToolSelected (ids : CommandIds) (s : FrameState) : FrameState :=
  SetToolID s ids.ID_NO_TOOL_SELECTED s.defaultCursor ""

/-- Modelled from the spec: `EndMouseCapture( id, cursor )` (a canvas function declared
outside `edit.cpp`) stops the current command and deselects the current tool: the mouse
capture is over and the tool state is set to the given id and cursor with an empty
hint. -/
def EndMouseCapture (s : FrameState) (id : Int) (cursor : Int) : FrameState :=
  SetToolID (FrameState.emit { s with mouseCaptured := false } Effect.EndMouseCapture)
    id cursor ""

/-- Modelled from the spec: `SetActiveLayer` (declared in the frame classes) updates the
current layer. -/
def SetActiveLayer (s : FrameState) (layer : Int) : FrameState :=
  { s with activeLayer := layer }

/-- Modelled from the spec: `KIWAY::Player` is the window manager's find-or-create.  It
returns the live window of the requested kind when there is one; otherwise it creates
one when `doCreate` is set and returns null when it is not. -/
def Player (s : FrameState) (aFrameType : FRAME_T) (doCreate : Bool) :
    FrameState × Option Nat :=
  match s.players.findIdx? (fun w => decide (w.kind = aFrameType)) with
  | some i => (s, some i)
  | none =>
    if doCreate then
      (FrameState.emit
          { s with players := s.players ++ [{ kind := aFrameType, iconized := false }] }
          (Effect.CreateWindow aFrameType),
        some s.players.length)
    else (s, none)

/-- Result of `IsIconized()` on the window with the given handle. -/
def IsIconized (s : FrameState) (handle : Nat) : Bool :=
  match s.players.get? handle with
  | some w => w.iconized
  | none => false

/-- Call `Iconize( iconize )` on the window with the given handle. -/
def Iconize (s : FrameState) (handle : Nat) (iconize : Bool) : FrameState :=
  FrameState.emit
    { s with players := s.players.modify (fun w => { w with iconized := iconize }) handle }
    (Effect.Iconize handle iconize)

/-- Call `SetFocus()` on the window with the given handle. -/
def SetFocus (s : FrameState) (handle : Nat) : FrameState :=
  FrameState.emit { s with focus := some handle } (Effect.SetFocus handle)

/-! ## `PCB_EDIT_FRAME::Process_Special_Functions` -/

/-- The ids of the first `switch` that break without finishing the current command. -/
def isExemptId (ids : CommandIds) (id : Int) : Bool :=
  decide (id = ids.wxID_CUT) || decide (id = ids.wxID_COPY)
    || decide (id = ids.ID_TOOLBARH_PCB_SELECT_LAYER)
    || decide (id = ids.ID_AUX_TOOLBAR_PCB_SELECT_LAYER_PAIR)

/-- First `switch` of the dispatcher (lines 73-93): finish or abort the current command. -/
def Process_Special_Functions_finish (ids : CommandIds) (s : FrameState) (id : Int) :
    FrameState :=
  if isExemptId ids id then s
  else
    let s1 := if s.mouseCaptured then s.emit Effect.CallEndMouseCapture else s
    if s1.m_toolId ≠ id then
      let s2 :=
        if s1.m_lastDrawToolId ≠ s1.m_toolId then { s1 with m_lastDrawToolId := s1.m_toolId }
        else s1
      SetNoToolSelected ids s2
    else s1

/-- Body of `case ID_OPEN_MODULE_EDITOR` (lines 100-126). -/
def openModuleEditor (s : FrameState) : FrameState :=
  match Player s FRAME_T.FRAME_PCB_MODULE_EDITOR false with
  | (s1, none) =>
    match Player s1 FRAME_T.FRAME_PCB_MODULE_EDITOR true with
    | (s2, some editor) =>
      (s2.emit (Effect.Zoom_Automatique editor)).emit (Effect.PushPreferences editor)
    | (s2, none) => s2
  | (s1, some editor) =>
    let s2 := if IsIconized s1 editor then Iconize s1 editor false else s1
    let s3 := s2.emit (Effect.Raise editor)
    let s4 := if s3.focus ≠ some editor then SetFocus s3 editor else s3
    s4.emit (Effect.PushPreferences editor)

/-- Body of `case ID_OPEN_MODULE_VIEWER` (lines 128-153). -/
def openModuleViewer (s : FrameState) : FrameState :=
  match Player s FRAME_T.FRAME_PCB_MODULE_VIEWER false with
  | (s1, none) =>
    match Player s1 FRAME_T.FRAME_PCB_MODULE_VIEWER true with
    | (s2, some viewer) => s2.emit (Effect.PushPreferences viewer)
    | (s2, none) => s2
  | (s1, some viewer) =>
    let s2 := if IsIconized s1 viewer then Iconize s1 viewer false else s1
    let s3 := s2.emit (Effect.Raise viewer)
    let s4 := if s3.focus ≠ some viewer then SetFocus s3 viewer else s3
    s4.emit (Effect.PushPreferences viewer)

/-- Body of `case ID_TOOLBARH_PCB_SELECT_LAYER` (lines 173-178). -/
def selectLayerFromToolbar (L : LayerIds) (s : FrameState) : FrameState :=
  let s1 := SetActiveLayer s (L.ToLAYER_ID s.layerSelection)
  if s1.m_ContrastModeDisplay then s1.emit Effect.Refresh else s1

/-- The case labels of the second `switch`, in source order. -/
def isHandledId (ids : CommandIds) (id : Int) : Bool :=
  decide (id = 0) || decide (id = ids.ID_OPEN_MODULE_EDITOR)
    || decide (id = ids.ID_OPEN_MODULE_VIEWER) || decide (id = ids.ID_PCB_GLOBAL_DELETE)
    || decide (id = ids.ID_DRC_CONTROL) || decide (id = ids.ID_GET_NETLIST)
    || decide (id = ids.ID_AUX_TOOLBAR_PCB_SELECT_LAYER_PAIR)
    || decide (id = ids.ID_TOOLBARH_PCB_SELECT_LAYER) || decide (id = ids.ID_MENU_PCB_CLEAN)
    || decide (id = ids.ID_MENU_PCB_UPDATE_FOOTPRINTS)
    || decide (id = ids.ID_MENU_PCB_EXCHANGE_FOOTPRINTS)
    || decide (id = ids.ID_MENU_PCB_SWAP_LAYERS)
    || decide (id = ids.ID_MENU_ARCHIVE_MODULES_IN_LIBRARY)
    || decide (id = ids.ID_MENU_CREATE_LIBRARY_AND_ARCHIVE_MODULES)
    || decide (id = ids.ID_GEN_IMPORT_GRAPHICS_FILE)

/-- Second `switch` of the dispatcher (lines 95-213): execute the command. -/
def Process_Special_Functions_execute (ids : CommandIds) (L : LayerIds) (s : FrameState)
    (id : Int) : FrameState :=
  if id = 0 then s
  else if id = ids.ID_OPEN_MODULE_EDITOR then openModuleEditor s
  else if id = ids.ID_OPEN_MODULE_VIEWER then openModuleViewer s
  else if id = ids.ID_PCB_GLOBAL_DELETE then s.emit Effect.InstallPcbGlobalDeleteFrame
  else if id = ids.ID_DRC_CONTROL then s.emit Effect.ShowDRCDialog
  else if id = ids.ID_GET_NETLIST then s.emit Effect.InstallNetlistFrame
  else if id = ids.ID_AUX_TOOLBAR_PCB_SELECT_LAYER_PAIR then
    s.emit Effect.SelectCopperLayerPair
  else if id = ids.ID_TOOLBARH_PCB_SELECT_LAYER then selectLayerFromToolbar L s
  else if id = ids.ID_MENU_PCB_CLEAN then s.emit Effect.Clean_Pcb
  else if id = ids.ID_MENU_PCB_UPDATE_FOOTPRINTS then
    s.emit (Effect.InstallExchangeModuleFrame true false)
  else if id = ids.ID_MENU_PCB_EXCHANGE_FOOTPRINTS then
    s.emit (Effect.InstallExchangeModuleFrame false false)
  else if id = ids.ID_MENU_PCB_SWAP_LAYERS then s.emit Effect.Swap_Layers
  else if id = ids.ID_MENU_ARCHIVE_MODULES_IN_LIBRARY then
    s.emit (Effect.ArchiveModulesOnBoard false)
  else if id = ids.ID_MENU_CREATE_LIBRARY_AND_ARCHIVE_MODULES then
    s.emit (Effect.ArchiveModulesOnBoard true)
  else if id = ids.ID_GEN_IMPORT_GRAPHICS_FILE then
    (s.emit Effect.InvokeDialogImportGfxBoard).emit Effect.Refresh
  else s.emit (Effect.wxLogDebug id)

/-- Closing statements of the dispatcher (lines 215-216). -/
def Process_Special_Functions_epilogue (s : FrameState) : FrameState :=
  (s.emit Effect.CrossHairOn).emit (Effect.SetIgnoreMouseEvents false)

/-- The dispatcher `PCB_EDIT_FRAME::Process_Special_Functions`, for the event id `id`. -/
def Process_Special_Functions (ids : CommandIds) (L : LayerIds) (s : FrameState) (id : Int) :
    FrameState :=
  Process_Special_Functions_epilogue
    (Process_Special_Functions_execute ids L
      (Process_Special_Functions_finish ids (s.emit Effect.CrossHairOff) id) id)

/-! ## `PCB_EDIT_FRAME::SwitchLayer` -/

/-- Lines 257-260 of `SwitchLayer`: make the layer active and refresh in contrast mode. -/
def SwitchLayer_commit (s : FrameState) (layer : Int) : FrameState :=
  let s1 := SetActiveLayer s layer
  if s1.m_ContrastModeDisplay then s1.emit Effect.Refresh else s1

/-- The function `PCB_EDIT_FRAME::SwitchLayer( DC, layer )`.  The device context is not
used by the body. -/
def SwitchLayer (L : LayerIds) (s : FrameState) (layer : Int) : FrameState :=
  let curLayer := s.activeLayer
  if layer = curLayer then s
  else if L.IsCopperLayer layer = true then
    if s.copperLayerCount < 2 then
      if layer ≠ L.B_Cu then s else SwitchLayer_commit s layer
    else
      if layer ≠ L.B_Cu ∧ layer ≠ L.F_Cu ∧ layer ≥ s.copperLayerCount - 1 then s
      else SwitchLayer_commit s layer
  else SwitchLayer_commit s layer

/-! ## `PCB_EDIT_FRAME::OnSelectTool` -/

/-- The function `PCB_EDIT_FRAME::OnSelectTool`, for the event id `id`. -/
def OnSelectTool (ids : CommandIds) (T : ToolIds) (s : FrameState) (id : Int) : FrameState :=
  let lastToolID := s.m_toolId
  let s1 := EndMouseCapture s ids.ID_NO_TOOL_SELECTED s.defaultCursor
  if id = ids.ID_NO_TOOL_SELECTED then SetNoToolSelected ids s1
  else if id = T.ID_ZOOM_SELECTION then
    if lastToolID ≠ T.ID_ZOOM_SELECTION then
      SetToolID s1 T.ID_ZOOM_SELECTION T.wxCURSOR_MAGNIFIER (T.translate "Zoom to selection")
    else SetNoToolSelected ids s1
  else if id = T.ID_TRACK_BUTT then
    FrameState.emit
      (if s1.m_legacyDrcOn = true then
        SetToolID s1 id T.wxCURSOR_PENCIL (T.translate "Add tracks")
      else SetToolID s1 id T.wxCURSOR_QUESTION_ARROW (T.translate "Add tracks"))
      Effect.Compile_Ratsnest
  else if id = T.ID_PCB_ZONES_BUTT then
    let s2 := SetToolID s1 id T.wxCURSOR_PENCIL (T.translate "Add zones")
    if s2.m_DisplayZonesMode ≠ 0 then
      s2.emit (Effect.DisplayInfoMessage (T.translate "Warning: zone display is OFF!!!"))
    else s2
  else if id = T.ID_PCB_KEEPOUT_BUTT then
    SetToolID s1 id T.wxCURSOR_PENCIL (T.translate "Add keepout")
  else if id = T.ID_PCB_TARGET_BUTT then
    SetToolID s1 id T.wxCURSOR_PENCIL (T.translate "Add layer alignment target")
  else if id = T.ID_PCB_PLACE_OFFSET_COORD_BUTT then
    SetToolID s1 id T.wxCURSOR_PENCIL (T.translate "Adjust zero")
  else if id = T.ID_PCB_PLACE_GRID_COORD_BUTT then
    SetToolID s1 id T.wxCURSOR_PENCIL (T.translate "Adjust grid origin")
  else if id = T.ID_PCB_ADD_LINE_BUTT then
    SetToolID s1 id T.wxCURSOR_PENCIL (T.translate "Add graphic line")
  else if id = T.ID_PCB_ARC_BUTT then
    SetToolID s1 id T.wxCURSOR_PENCIL (T.translate "Add graphic arc")
  else if id = T.ID_PCB_CIRCLE_BUTT then
    SetToolID s1 id T.wxCURSOR_PENCIL (T.translate "Add graphic circle")
  else if id = T.ID_PCB_ADD_TEXT_BUTT then
    SetToolID s1 id T.wxCURSOR_PENCIL (T.translate "Add text")
  else if id = T.ID_COMPONENT_BUTT then
    SetToolID s1 id T.wxCURSOR_HAND (T.translate "Add footprint")
  else if id = T.ID_PCB_DIMENSION_BUTT then
    SetToolID s1 id T.wxCURSOR_PENCIL (T.translate "Add dimension")
  else if id = T.ID_PCB_DELETE_ITEM_BUTT then
    SetToolID s1 id T.wxCURSOR_BULLSEYE (T.translate "Delete item")
  else if id = T.ID_PCB_HIGHLIGHT_BUTT then
    SetToolID s1 id T.wxCURSOR_HAND (T.translate "Highlight net")
  else if id = T.ID_LOCAL_RATSNEST_BUTT then
    (SetToolID s1 id T.wxCURSOR_HAND (T.translate "Select rats nest")).emit
      Effect.Compile_Ratsnest
  else if id = T.ID_PCB_DRAW_VIA_BUTT ∨ id = T.ID_PCB_MEASUREMENT_TOOL then
    SetToolID s1 id T.wxCURSOR_DEFAULT (T.translate "Unsupported tool in this canvas")
  else s1

/-- The tool buttons of `OnSelectTool` other than the zoom toggle, each with the cursor
glyph and the status hint of its case, for a frame whose legacy-DRC setting is that
of `s`. -/
def toolButtonTable (T : ToolIds) (s : FrameState) : List (Int × Int × String) :=
  [ (T.ID_TRACK_BUTT,
      if s.m_legacyDrcOn = true then T.wxCURSOR_PENCIL else T.wxCURSOR_QUESTION_ARROW,
      T.translate "Add tracks"),
    (T.ID_PCB_ZONES_BUTT, T.wxCURSOR_PENCIL, T.translate "Add zones"),
    (T.ID_PCB_KEEPOUT_BUTT, T.wxCURSOR_PENCIL, T.translate "Add keepout"),
    (T.ID_PCB_TARGET_BUTT, T.wxCURSOR_PENCIL, T.translate "Add layer alignment target"),
    (T.ID_PCB_PLACE_OFFSET_COORD_BUTT, T.wxCURSOR_PENCIL, T.translate "Adjust zero"),
    (T.ID_PCB_PLACE_GRID_COORD_BUTT, T.wxCURSOR_PENCIL, T.translate "Adjust grid origin"),
    (T.ID_PCB_ADD_LINE_BUTT, T.wxCURSOR_PENCIL, T.translate "Add graphic line"),
    (T.ID_PCB_ARC_BUTT, T.wxCURSOR_PENCIL, T.translate "Add graphic arc"),
    (T.ID_PCB_CIRCLE_BUTT, T.wxCURSOR_PENCIL, T.translate "Add graphic circle"),
    (T.ID_PCB_ADD_TEXT_BUTT, T.wxCURSOR_PENCIL, T.translate "Add text"),
    (T.ID_COMPONENT_BUTT, T.wxCURSOR_HAND, T.translate "Add footprint"),
    (T.ID_PCB_DIMENSION_BUTT, T.wxCURSOR_PENCIL, T.translate "Add dimension"),
    (T.ID_PCB_DELETE_ITEM_BUTT, T.wxCURSOR_BULLSEYE, T.translate "Delete item"),
    (T.ID_PCB_HIGHLIGHT_BUTT, T.wxCURSOR_HAND, T.translate "Highlight net"),
    (T.ID_LOCAL_RATSNEST_BUTT, T.wxCURSOR_HAND, T.translate "Select rats nest"),
    (T.ID_PCB_DRAW_VIA_BUTT, T.wxCURSOR_DEFAULT,
      T.translate "Unsupported tool in this canvas"),
    (T.ID_PCB_MEASUREMENT_TOOL, T.wxCURSOR_DEFAULT,
      T.translate "Unsupported tool in this canvas") ]

/-- The case labels of the `switch` in `OnSelectTool`, in source order. -/
def toolCaseLabels (ids : CommandIds) (T : ToolIds) : List Int :=
  [ ids.ID_NO_TOOL_SELECTED, T.ID_ZOOM_SELECTION, T.ID_TRACK_BUTT, T.ID_PCB_ZONES_BUTT,
    T.ID_PCB_KEEPOUT_BUTT, T.ID_PCB_TARGET_BUTT, T.ID_PCB_PLACE_OFFSET_COORD_BUTT,
    T.ID_PCB_PLACE_GRID_COORD_BUTT, T.ID_PCB_ADD_LINE_BUTT, T.ID_PCB_ARC_BUTT,
    T.ID_PCB_CIRCLE_BUTT, T.ID_PCB_ADD_TEXT_BUTT, T.ID_COMPONENT_BUTT,
    T.ID_PCB_DIMENSION_BUTT, T.ID_PCB_DELETE_ITEM_BUTT, T.ID_PCB_HIGHLIGHT_BUTT,
    T.ID_LOCAL_RATSNEST_BUTT, T.ID_PCB_DRAW_VIA_BUTT, T.ID_PCB_MEASUREMENT_TOOL ]

/-- The tool id, cursor glyph and status hint of a frame. -/
def toolTriple (s : FrameState) : Int × Int × String :=
  (s.m_toolId, s.m_cursor, s.m_toolMsg)

/-- The tool state of `t` is complete: it is the idle state, the zoom tool's state, or
the state of a tool button from the table. -/
def toolStateComplete (ids : CommandIds) (T : ToolIds) (s t : FrameState) : Prop :=
  toolTriple t = (ids.ID_NO_TOOL_SELECTED, s.defaultCursor, "")
  ∨ toolTriple t = (T.ID_ZOOM_SELECTION, T.wxCURSOR_MAGNIFIER, T.translate "Zoom to selection")
  ∨ toolTriple t ∈ toolButtonTable T s

/-- For a tool-button id other than the idle and zoom ids, `t` has that id active with
a cursor and hint the table lists for it. -/
def activatesButton (ids : CommandIds) (T : ToolIds) (s : FrameState) (id : Int)
    (t : FrameState) : Prop :=
  id ≠ ids.ID_NO_TOOL_SELECTED → id ≠ T.ID_ZOOM_SELECTION →
    id ∈ (toolButtonTable T s).map Prod.fst →
      t.m_toolId = id ∧ (id, t.m_cursor, t.m_toolMsg) ∈ toolButtonTable T s

/-! ## Concrete values for evaluation -/

/-- The numbering of the `PCB_LAYER_ID` enumeration: `F_Cu` is 0, the inner copper layers
`In1_Cu` to `In30_Cu` are 1 to 30, `B_Cu` is 31, and the technical layers follow. -/
def pcbLayers : LayerIds where
  F_Cu := 0
  B_Cu := 31
  IsCopperLayer := fun l => decide (0 ≤ l) && decide (l ≤ 31)
  ToLAYER_ID := fun l => l

/-- One assignment of pairwise distinct command identifiers. -/
def sampleIds : CommandIds where
  wxID_CUT := 5031
  wxID_COPY := 5032
  ID_TOOLBARH_PCB_SELECT_LAYER := 6101
  ID_AUX_TOOLBAR_PCB_SELECT_LAYER_PAIR := 6102
  ID_OPEN_MODULE_EDITOR := 6103
  ID_OPEN_MODULE_VIEWER := 6104
  ID_PCB_GLOBAL_DELETE := 6105
  ID_DRC_CONTROL := 6106
  ID_GET_NETLIST := 6107
  ID_MENU_PCB_CLEAN := 6108
  ID_MENU_PCB_UPDATE_FOOTPRINTS := 6109
  ID_MENU_PCB_EXCHANGE_FOOTPRINTS := 6110
  ID_MENU_PCB_SWAP_LAYERS := 6111
  ID_MENU_ARCHIVE_MODULES_IN_LIBRARY := 6112
  ID_MENU_CREATE_LIBRARY_AND_ARCHIVE_MODULES := 6113
  ID_GEN_IMPORT_GRAPHICS_FILE := 6114
  ID_NO_TOOL_SELECTED := 6001

/-- A frame on the given layer of a board with the given copper-layer count, with a
drawing tool (id 6200) active, a mouse capture in progress, inner layer 3 selected in
the layer box and no sub-window open. -/
def sampleFrameOn (layer : Int) (count : Int) (contrast : Bool) : FrameState where
  m_toolId := 6200
  m_lastDrawToolId := 6001
  activeLayer := layer
  mouseCaptured := true
  copperLayerCount := count
  m_ContrastModeDisplay := contrast
  layerSelection := 3
  players := []
  focus := none
  trace := []
  m_cursor := 7
  m_toolMsg := "Add graphic line"
  defaultCursor := 1
  m_legacyDrcOn := true
  m_DisplayZonesMode := 0

/-- The sample frame on the front copper layer. -/
def sampleFrame (count : Int) (contrast : Bool) : FrameState :=
  sampleFrameOn 0 count contrast

/-- One assignment of pairwise distinct tool-button identifiers, with stock cursor
numbers and the identity translation. -/
def sampleTools : ToolIds where
  ID_ZOOM_SELECTION := 6201
  ID_TRACK_BUTT := 6202
  ID_PCB_ZONES_BUTT := 6203
  ID_PCB_KEEPOUT_BUTT := 6204
  ID_PCB_TARGET_BUTT := 6205
  ID_PCB_PLACE_OFFSET_COORD_BUTT := 6206
  ID_PCB_PLACE_GRID_COORD_BUTT := 6207
  ID_PCB_ADD_LINE_BUTT := 6200
  ID_PCB_ARC_BUTT := 6208
  ID_PCB_CIRCLE_BUTT := 6209
  ID_PCB_ADD_TEXT_BUTT := 6210
  ID_COMPONENT_BUTT := 6211
  ID_PCB_DIMENSION_BUTT := 6212
  ID_PCB_DELETE_ITEM_BUTT := 6213
  ID_PCB_HIGHLIGHT_BUTT := 6214
  ID_LOCAL_RATSNEST_BUTT := 6215
  ID_PCB_DRAW_VIA_BUTT := 6216
  ID_PCB_MEASUREMENT_TOOL := 6217
  wxCURSOR_MAGNIFIER := 11
  wxCURSOR_PENCIL := 7
  wxCURSOR_QUESTION_ARROW := 9
  wxCURSOR_HAND := 6
  wxCURSOR_BULLSEYE := 3
  wxCURSOR_DEFAULT := 27
  translate := fun msg => msg

/-- A frame whose only sub-window is an iconized footprint editor, without the focus. -/
def sampleFrameWithEditor : FrameState :=
  { sampleFrame 2 false with
    players := [{ kind := FRAME_T.FRAME_PCB_MODULE_EDITOR, iconized := true }] }

/-! ## Predicates used in the statements -/

/-- The fields of `t` that no collaborator call of the dispatcher writes agree with `s`. -/
def sameTool (s t : FrameState) : Prop :=
  t.m_toolId = s.m_toolId ∧ t.m_lastDrawToolId = s.m_lastDrawToolId
    ∧ t.copperLayerCount = s.copperLayerCount

/-- State `t` follows `s` by collaborator calls none of which ends a mouse capture. -/
def endsNoCapture (s t : FrameState) : Prop :=
  ∃ es, t.trace = s.trace ++ es ∧ Effect.CallEndMouseCapture ∉ es

/-- Number of live footprint-editor windows. -/
def editorCount (s : FrameState) : Nat :=
  s.players.countP (fun w => decide (w.kind = FRAME_T.FRAME_PCB_MODULE_EDITOR))

/-- One dispatch of the command `ID_OPEN_MODULE_EDITOR`. -/
def openEditorCommand (ids : CommandIds) (L : LayerIds) (s : FrameState) : FrameState :=
  Process_Special_Functions ids L s ids.ID_OPEN_MODULE_EDITOR

end PcbEdit

/-! # Schematic find/replace flags and data

A shallow embedding of the enumeration `SchematicFindReplaceFlags`, the mask
`FR_MASK_NON_COMPARE_FLAGS` and the class `SCH_FIND_REPLACE_DATA` from
`eeschema/dialogs/dialog_schematic_find.h`.  A flags word is the value of the 32-bit
unsigned member `m_Flags`, a natural number below `2 ^ 32`.
-/

namespace SchFind

/-- The three flags of the wxWidgets enumeration `wxFindReplaceFlags`, declared in
`wx/fdrepdlg.h`. -/
structure WxFindReplaceFlags where
  wxFR_DOWN : Nat
  wxFR_WHOLEWORD : Nat
  wxFR_MATCHCASE : Nat

/-- The wxWidgets values `wxFR_DOWN = 0x1`, `wxFR_WHOLEWORD = 0x2` and, as the comment
in the enumeration records, `wxFR_MATCHCASE = 0x4`. -/
def wxFlags : WxFindReplaceFlags where
  wxFR_DOWN := 0x1
  wxFR_WHOLEWORD := 0x2
  wxFR_MATCHCASE := 0x4

/-- Search the current sheet only. -/
def FR_CURRENT_SHEET_ONLY (W : WxFindReplaceFlags) : Nat := W.wxFR_MATCHCASE <<< 1

/-- Search all fields in component, not just the value and reference fields. -/
def FR_SEARCH_ALL_FIELDS (W : WxFindReplaceFlags) : Nat := W.wxFR_MATCHCASE <<< 2

/-- Search texts in pins. -/
def FR_SEARCH_ALL_PINS (W : WxFindReplaceFlags) : Nat := W.wxFR_MATCHCASE <<< 3

/-- Perform search using simple wild card matching. -/
def FR_MATCH_WILDCARD (W : WxFindReplaceFlags) : Nat := W.wxFR_MATCHCASE <<< 4

/-- Wrap around the beginning or end of search list. -/
def FR_SEARCH_WRAP (W : WxFindReplaceFlags) : Nat := W.wxFR_MATCHCASE <<< 5

/-- Perform a search for an item that has replaceable text. -/
def FR_SEARCH_REPLACE (W : WxFindReplaceFlags) : Nat := W.wxFR_MATCHCASE <<< 7

/-- Used by the search event handler to let the dialog know that a replaceable item has
been found. -/
def FR_REPLACE_ITEM_FOUND (W : WxFindReplaceFlags) : Nat := W.wxFR_MATCHCASE <<< 8

/-- Used by replace to ignore the component reference designator field. -/
def FR_REPLACE_REFERENCES (W : WxFindReplaceFlags) : Nat := W.wxFR_MATCHCASE <<< 9

/-- The eight enumerators of `SchematicFindReplaceFlags`, in source order. -/
def schematicFindReplaceFlags (W : WxFindReplaceFlags) : List Nat :=
  [ FR_CURRENT_SHEET_ONLY W, FR_SEARCH_ALL_FIELDS W, FR_SEARCH_ALL_PINS W, FR_MATCH_WILDCARD W,
    FR_SEARCH_WRAP W, FR_SEARCH_REPLACE W, FR_REPLACE_ITEM_FOUND W, FR_REPLACE_REFERENCES W ]

/-- The three wxWidgets flags. -/
def wxFindReplaceFlags (W : WxFindReplaceFlags) : List Nat :=
  [ W.wxFR_DOWN, W.wxFR_WHOLEWORD, W.wxFR_MATCHCASE ]

/-- The operator `~` on an `int` holding `x`, read as a 32-bit word. -/
def bitNot32 (x : Nat) : Nat :=
  (2 ^ 32 - 1) ^^^ (x % 2 ^ 32)

/-- The flags that do not affect the search result. -/
def nonCompareFlags (W : WxFindReplaceFlags) : Nat :=
  W.wxFR_DOWN ||| FR_SEARCH_WRAP W ||| FR_REPLACE_ITEM_FOUND W

/-- The macro `FR_MASK_NON_COMPARE_FLAGS`. -/
def FR_MASK_NON_COMPARE_FLAGS (W : WxFindReplaceFlags) : Nat :=
  bitNot32 (W.wxFR_DOWN ||| FR_SEARCH_WRAP W ||| FR_REPLACE_ITEM_FOUND W)

/-- The data members of `wxFindReplaceData`, the base class of `SCH_FIND_REPLACE_DATA`:
the 32-bit flags word, the find string and the replace string. -/
structure SCH_FIND_REPLACE_DATA where
  m_Flags : Nat
  m_FindWhat : String
  m_ReplaceWith : String
  deriving DecidableEq, Repr

/-- Accessor `GetFlags()` of the base class. -/
def GetFlags (d : SCH_FIND_REPLACE_DATA) : Nat := d.m_Flags

/-- Accessor `SetFlags( flags )` of the base class; the argument is converted to the
32-bit member. -/
def SetFlags (d : SCH_FIND_REPLACE_DATA) (flags : Nat) : SCH_FIND_REPLACE_DATA :=
  { d with m_Flags := flags % 2 ^ 32 }

/-- Accessor `GetFindString()` of the base class. -/
def GetFindString (d : SCH_FIND_REPLACE_DATA) : String := d.m_FindWhat

/-- Accessor `SetFindString( str )` of the base class. -/
def SetFindString (d : SCH_FIND_REPLACE_DATA) (str : String) : SCH_FIND_REPLACE_DATA :=
  { d with m_FindWhat := str }

/-- Accessor `GetReplaceString()` of the base class. -/
def GetReplaceString (d : SCH_FIND_REPLACE_DATA) : String := d.m_ReplaceWith

/-- Accessor `SetReplaceString( str )` of the base class. -/
def SetReplaceString (d : SCH_FIND_REPLACE_DATA) (str : String) : SCH_FIND_REPLACE_DATA :=
  { d with m_ReplaceWith := str }

/-- The assignment `operator =`.  `sameObject` is the outcome of the address test
`this == &aFindReplaceData`. -/
def operator_assign (self aFindReplaceData : SCH_FIND_REPLACE_DATA) (sameObject : Bool) :
    SCH_FIND_REPLACE_DATA :=
  if sameObject = true then self
  else
    let s1 := SetFlags self (GetFlags aFindReplaceData)
    let s2 := SetFindString s1 (GetFindString aFindReplaceData)
    SetReplaceString s2 (GetReplaceString aFindReplaceData)

/-- The comparison `operator ==`. -/
def operator_eq (self aFindReplaceData : SCH_FIND_REPLACE_DATA) : Bool :=
  decide (GetFlags self = GetFlags aFindReplaceData)
    && decide (GetFindString self = GetFindString aFindReplaceData)
    && decide (GetReplaceString self = GetReplaceString aFindReplaceData)

/-- The comparison `operator !=`. -/
def operator_ne (self aFindReplaceData : SCH_FIND_REPLACE_DATA) : Bool :=
  !(operator_eq self aFindReplaceData)

/-- The member function `GetCompareFlags()`; the result is a 32-bit word. -/
def GetCompareFlags (W : WxFindReplaceFlags) (d : SCH_FIND_REPLACE_DATA) : Nat :=
  (GetFlags d &&& FR_MASK_NON_COMPARE_FLAGS W) % 2 ^ 32

end SchFind

namespace PcbEdit

/-! ## Basic facts about the trace -/

theorem emitted_self (s : FrameState) : emitted s s = [] := by
  simp [emitted]

theorem emitted_append (s t : FrameState) (es : List Effect) (h : t.trace = s.trace ++ es) :
    emitted s t = es := by
  simp [emitted, h]

theorem SwitchLayer_commit_activeLayer (s : FrameState) (layer : Int) :
    (SwitchLayer_commit s layer).activeLayer = layer := by
  unfold SwitchLayer_commit SetActiveLayer
  by_cases h : s.m_ContrastModeDisplay = true <;> simp [h, FrameState.emit]

theorem SwitchLayer_commit_trace (s : FrameState) (layer : Int) :
    (SwitchLayer_commit s layer).trace
      = s.trace ++ (if s.m_ContrastModeDisplay = true then [Effect.Refresh] else []) := by
  unfold SwitchLayer_commit SetActiveLayer
  by_cases h : s.m_ContrastModeDisplay = true <;> simp [h, FrameState.emit]

/-! ## `SwitchLayer`: the transition rule -/

/-- C1: on a board with two or more copper layers, a copper target different from the
active layer becomes the active layer when it is `B_Cu`, `F_Cu`, or has an enumerator
value strictly below `copperLayerCount - 1`; every other copper target is rejected and
the frame is left as it was.  With four copper layers the inner layer numbered 2 is
accepted and the inner layer numbered 3 is rejected. -/
theorem SwitchLayer_multi_copper (L : LayerIds) (s : FrameState) (layer : Int)
    (hcount : 2 ≤ s.copperLayerCount) (hcu : L.IsCopperLayer layer = true)
    (hne : layer ≠ s.activeLayer) :
    ((layer = L.B_Cu ∨ layer = L.F_Cu ∨ layer < s.copperLayerCount - 1) →
        (SwitchLayer L s layer).activeLayer = layer)
    ∧ (¬ (layer = L.B_Cu ∨ layer = L.F_Cu ∨ layer < s.copperLayerCount - 1) →
        SwitchLayer L s layer = s)
    ∧ (s.copperLayerCount = 4 → layer = 2 → (SwitchLayer L s layer).activeLayer = 2)
    ∧ (s.copperLayerCount = 4 → layer = 3 → layer ≠ L.B_Cu → layer ≠ L.F_Cu →
        SwitchLayer L s layer = s) := by
  have hlt : ¬ s.copperLayerCount < 2 := by omega
  have key : ∀ (_ : layer = L.B_Cu ∨ layer = L.F_Cu ∨ layer < s.copperLayerCount - 1),
      (SwitchLayer L s layer).activeLayer = layer := by
    intro h
    have hg : ¬ (layer ≠ L.B_Cu ∧ layer ≠ L.F_Cu ∧ layer ≥ s.copperLayerCount - 1) := by
      rintro ⟨h1, h2, h3⟩
      rcases h with h | h | h
      · exact h1 h
      · exact h2 h
      · omega
    simp only [SwitchLayer, if_neg hne, hcu, if_true, if_neg hlt, if_neg hg]
    exact SwitchLayer_commit_activeLayer s layer
  have rej : ∀ (_ : ¬ (layer = L.B_Cu ∨ layer = L.F_Cu ∨ layer < s.copperLayerCount - 1)),
      SwitchLayer L s layer = s := by
    intro h
    have hg : layer ≠ L.B_Cu ∧ layer ≠ L.F_Cu ∧ layer ≥ s.copperLayerCount - 1 := by
      refine ⟨fun h1 => h (Or.inl h1), fun h2 => h (Or.inr (Or.inl h2)), ?_⟩
      by_contra h3
      exact h (Or.inr (Or.inr (by omega)))
    simp only [SwitchLayer, if_neg hne, hcu, if_true, if_neg hlt, if_pos hg]
  refine ⟨key, rej, ?_, ?_⟩
  · intro h4 h2
    have := key (Or.inr (Or.inr (by omega)))
    rwa [h2] at this ⊢
  · intro h4 h3 hB hF
    apply rej
    rintro (h | h | h)
    · exact hB h
    · exact hF h
    · omega

/-- Witness for C1 on the standard layer numbering: with four copper layers and `F_Cu`
active, inner layer 2 becomes active and a request for inner layer 3 changes nothing. -/
theorem SwitchLayer_multi_copper_witness :
    (2 : Int) ≤ (sampleFrame 4 true).copperLayerCount
    ∧ pcbLayers.IsCopperLayer 2 = true ∧ pcbLayers.IsCopperLayer 3 = true
    ∧ (SwitchLayer pcbLayers (sampleFrame 4 true) 2).activeLayer = 2
    ∧ SwitchLayer pcbLayers (sampleFrame 4 true) 3 = sampleFrame 4 true :=
  ⟨by decide, by decide, by decide,
    (SwitchLayer_multi_copper pcbLayers (sampleFrame 4 true) 2 (by decide) (by decide)
      (by decide)).2.2.1 rfl rfl,
    (SwitchLayer_multi_copper pcbLayers (sampleFrame 4 true) 3 (by decide) (by decide)
      (by decide)).2.2.2 rfl rfl (by decide) (by decide)⟩

/-- C2: on a board with fewer than two copper layers, a copper target other than `B_Cu`
(so also `F_Cu`) is rejected and the frame is left as it was; the active layer changes
only for `B_Cu`, and a request for `B_Cu` leaves `B_Cu` active.  With one copper layer a
request for `F_Cu` is rejected. -/
theorem SwitchLayer_single_copper (L : LayerIds) (s : FrameState) (layer : Int)
    (hcount : s.copperLayerCount < 2) (hcu : L.IsCopperLayer layer = true) :
    (layer ≠ L.B_Cu → SwitchLayer L s layer = s)
    ∧ ((SwitchLayer L s layer).activeLayer ≠ s.activeLayer → layer = L.B_Cu)
    ∧ (layer = L.B_Cu → (SwitchLayer L s layer).activeLayer = L.B_Cu)
    ∧ (s.copperLayerCount = 1 → layer = L.F_Cu → L.F_Cu ≠ L.B_Cu →
        SwitchLayer L s layer = s) := by
  have rej : layer ≠ L.B_Cu → SwitchLayer L s layer = s := by
    intro hB
    by_cases hne : layer = s.activeLayer
    · simp only [SwitchLayer, if_pos hne]
    · simp only [SwitchLayer, if_neg hne, hcu, if_true, if_pos hcount, if_pos hB]
  refine ⟨rej, ?_, ?_, ?_⟩
  · intro hch
    by_contra hB
    exact hch (by rw [rej hB])
  · intro hB
    by_cases hne : layer = s.activeLayer
    · simp only [SwitchLayer, if_pos hne]
      rw [← hne, hB]
    · have hnn : ¬ layer ≠ L.B_Cu := fun h => h hB
      simp only [SwitchLayer, if_neg hne, hcu, if_true, if_pos hcount, if_neg hnn]
      rw [SwitchLayer_commit_activeLayer, hB]
  · intro _ hF hFB
    exact rej (by rw [hF]; exact hFB)

/-- Witness for C2 on the standard layer numbering: with one copper layer and a
technical layer active, a request for `F_Cu` (layer 0) is rejected and `B_Cu` (layer 31)
becomes active on request. -/
theorem SwitchLayer_single_copper_witness :
    (sampleFrameOn 40 1 false).copperLayerCount < 2
    ∧ pcbLayers.IsCopperLayer 0 = true ∧ pcbLayers.IsCopperLayer 31 = true
    ∧ SwitchLayer pcbLayers (sampleFrameOn 40 1 false) 0 = sampleFrameOn 40 1 false
    ∧ (SwitchLayer pcbLayers (sampleFrameOn 40 1 false) 31).activeLayer = 31 :=
  ⟨by decide, by decide, by decide,
    (SwitchLayer_single_copper pcbLayers (sampleFrameOn 40 1 false) 0 (by decide)
      (by decide)).2.2.2 rfl rfl (by decide),
    (SwitchLayer_single_copper pcbLayers (sampleFrameOn 40 1 false) 31 (by decide)
      (by decide)).2.2.1 rfl⟩

/-- C3: for every layer that is not a copper layer and every board, the active layer
after `SwitchLayer` is the requested layer. -/
theorem SwitchLayer_non_copper (L : LayerIds) (s : FrameState) (layer : Int)
    (hcu : L.IsCopperLayer layer = false) :
    (SwitchLayer L s layer).activeLayer = layer := by
  by_cases hne : layer = s.activeLayer
  · simp only [SwitchLayer, if_pos hne]
    exact hne.symm
  · simp only [SwitchLayer, if_neg hne, hcu, Bool.false_eq_true, if_false]
    exact SwitchLayer_commit_activeLayer s layer

/-- Witness for C3 on the standard layer numbering: layer 40 is a technical layer and
becomes active on a one-layer board. -/
theorem SwitchLayer_non_copper_witness :
    pcbLayers.IsCopperLayer 40 = false
    ∧ (SwitchLayer pcbLayers (sampleFrame 1 true) 40).activeLayer = 40 :=
  ⟨by decide, SwitchLayer_non_copper pcbLayers (sampleFrame 1 true) 40 (by decide)⟩

/-- C8: a request for the layer that is already active changes nothing, whatever the
copper-layer count and the contrast-mode setting: the frame is returned as it was, so
the active layer is unchanged, and no collaborator call (no refresh) is made. -/
theorem SwitchLayer_same_layer (L : LayerIds) (s : FrameState) :
    SwitchLayer L s s.activeLayer = s
    ∧ (SwitchLayer L s s.activeLayer).activeLayer = s.activeLayer
    ∧ Effect.Refresh ∉ emitted s (SwitchLayer L s s.activeLayer) := by
  have h : SwitchLayer L s s.activeLayer = s := by
    simp only [SwitchLayer, if_true]
  refine ⟨h, by rw [h], ?_⟩
  rw [h, emitted_self]
  exact List.not_mem_nil _

/-- The two outcomes of `SwitchLayer`: the frame is returned as it was, or the target
differs from the active layer and lines 257-260 run. -/
theorem SwitchLayer_cases (L : LayerIds) (s : FrameState) (layer : Int) :
    SwitchLayer L s layer = s
    ∨ (layer ≠ s.activeLayer ∧ SwitchLayer L s layer = SwitchLayer_commit s layer) := by
  unfold SwitchLayer
  by_cases hne : layer = s.activeLayer
  · left
    simp only [if_pos hne]
  · simp only [if_neg hne]
    split_ifs
    all_goals first
      | exact Or.inl rfl
      | exact Or.inr ⟨hne, rfl⟩

theorem emitted_SwitchLayer_commit (s : FrameState) (layer : Int) :
    emitted s (SwitchLayer_commit s layer)
      = if s.m_ContrastModeDisplay = true then [Effect.Refresh] else [] :=
  emitted_append s _ _ (SwitchLayer_commit_trace s layer)

/-- C10: `SwitchLayer` requests a refresh exactly when the target differs from the
previously active layer, the target has become the active layer, and contrast-mode
display is on; when the active layer is the same after the call as before (a rejected
or same-layer request) no collaborator call is made at all. -/
theorem SwitchLayer_refresh_iff (L : LayerIds) (s : FrameState) (layer : Int) :
    (Effect.Refresh ∈ emitted s (SwitchLayer L s layer) ↔
      (layer ≠ s.activeLayer ∧ (SwitchLayer L s layer).activeLayer = layer
        ∧ s.m_ContrastModeDisplay = true))
    ∧ ((SwitchLayer L s layer).activeLayer = s.activeLayer →
        emitted s (SwitchLayer L s layer) = []) := by
  rcases SwitchLayer_cases L s layer with h | ⟨hne, h⟩
  · rw [h, emitted_self]
    refine ⟨⟨fun hm => absurd hm (List.not_mem_nil _), ?_⟩, fun _ => rfl⟩
    rintro ⟨hne, hact, _⟩
    exact absurd hact.symm hne
  · rw [h, emitted_SwitchLayer_commit, SwitchLayer_commit_activeLayer]
    refine ⟨?_, fun hact => absurd hact hne⟩
    by_cases hc : s.m_ContrastModeDisplay = true
    · simp [hc, hne]
    · simp [hc]

/-! ## The dispatcher: fields kept by each phase -/

theorem openModuleEditor_create (s : FrameState)
    (h : s.players.findIdx? (fun w => decide (w.kind = FRAME_T.FRAME_PCB_MODULE_EDITOR)) = none) :
    openModuleEditor s =
      { s with
        players := s.players ++ [{ kind := FRAME_T.FRAME_PCB_MODULE_EDITOR, iconized := false }]
        trace := s.trace ++ [Effect.CreateWindow FRAME_T.FRAME_PCB_MODULE_EDITOR,
          Effect.Zoom_Automatique s.players.length, Effect.PushPreferences s.players.length] } := by
  simp [openModuleEditor, Player, h, FrameState.emit]

theorem openModuleEditor_reuse (s : FrameState) (i : Nat)
    (h : s.players.findIdx? (fun w => decide (w.kind = FRAME_T.FRAME_PCB_MODULE_EDITOR))
      = some i) :
    openModuleEditor s =
      { s with
        players :=
          if IsIconized s i = true then
            s.players.modify (fun w => { w with iconized := false }) i
          else s.players
        focus := some i
        trace := s.trace
          ++ (if IsIconized s i = true then [Effect.Iconize i false] else [])
          ++ [Effect.Raise i]
          ++ (if s.focus ≠ some i then [Effect.SetFocus i] else [])
          ++ [Effect.PushPreferences i] } := by
  simp only [openModuleEditor, Player, h]
  by_cases hi : IsIconized s i = true <;> by_cases hf : s.focus = some i <;>
    simp [hi, hf, FrameState.emit, Iconize, SetFocus]

theorem openModuleEditor_fields (s : FrameState) :
    (openModuleEditor s).m_toolId = s.m_toolId
    ∧ (openModuleEditor s).m_lastDrawToolId = s.m_lastDrawToolId
    ∧ (openModuleEditor s).activeLayer = s.activeLayer
    ∧ (openModuleEditor s).copperLayerCount = s.copperLayerCount := by
  cases h : s.players.findIdx? (fun w => decide (w.kind = FRAME_T.FRAME_PCB_MODULE_EDITOR)) with
  | none => simp [openModuleEditor_create s h]
  | some i => simp [openModuleEditor_reuse s i h]

theorem openModuleViewer_trace (s : FrameState) :
    ∃ es, (openModuleViewer s).trace = s.trace ++ es ∧ Effect.CallEndMouseCapture ∉ es := by
  cases h : s.players.findIdx? (fun w => decide (w.kind = FRAME_T.FRAME_PCB_MODULE_VIEWER)) with
  | none =>
    exact ⟨[Effect.CreateWindow FRAME_T.FRAME_PCB_MODULE_VIEWER,
      Effect.PushPreferences s.players.length],
      by simp [openModuleViewer, Player, h, FrameState.emit], by simp⟩
  | some i =>
    refine ⟨(if IsIconized s i = true then [Effect.Iconize i false] else [])
      ++ [Effect.Raise i] ++ (if s.focus ≠ some i then [Effect.SetFocus i] else [])
      ++ [Effect.PushPreferences i], ?_, ?_⟩
    · simp only [openModuleViewer, Player, h]
      by_cases hi : IsIconized s i = true <;> by_cases hf : s.focus = some i <;>
        simp [hi, hf, FrameState.emit, Iconize, SetFocus]
    · by_cases hi : IsIconized s i = true <;> by_cases hf : s.focus = some i <;>
        simp [hi, hf]

theorem openModuleViewer_fields (s : FrameState) :
    (openModuleViewer s).m_toolId = s.m_toolId
    ∧ (openModuleViewer s).m_lastDrawToolId = s.m_lastDrawToolId
    ∧ (openModuleViewer s).activeLayer = s.activeLayer
    ∧ (openModuleViewer s).copperLayerCount = s.copperLayerCount := by
  cases h : s.players.findIdx? (fun w => decide (w.kind = FRAME_T.FRAME_PCB_MODULE_VIEWER)) with
  | none => simp [openModuleViewer, Player, h, FrameState.emit]
  | some i =>
    simp only [openModuleViewer, Player, h]
    by_cases hi : IsIconized s i = true <;> by_cases hf : s.focus = some i <;>
      simp [hi, hf, FrameState.emit, Iconize, SetFocus]

theorem sameTool_refl (s : FrameState) : sameTool s s := ⟨rfl, rfl, rfl⟩

theorem sameTool_emit (s t : FrameState) (e : Effect) (h : sameTool s t) :
    sameTool s (t.emit e) := h

theorem sameTool_ite (s a b : FrameState) (c : Prop) [Decidable c]
    (ha : sameTool s a) (hb : sameTool s b) : sameTool s (if c then a else b) := by
  split_ifs
  · exact ha
  · exact hb

theorem sameTool_selectLayer (L : LayerIds) (s : FrameState) :
    sameTool s (selectLayerFromToolbar L s) := by
  by_cases h : s.m_ContrastModeDisplay = true <;>
    simp [selectLayerFromToolbar, SetActiveLayer, h, sameTool, FrameState.emit]

theorem execute_sameTool (ids : CommandIds) (L : LayerIds) (s : FrameState) (id : Int) :
    sameTool s (Process_Special_Functions_execute ids L s id) := by
  unfold Process_Special_Functions_execute
  repeat first
    | exact sameTool_refl s
    | exact sameTool_selectLayer L s
    | exact ⟨(openModuleEditor_fields s).1, (openModuleEditor_fields s).2.1,
        (openModuleEditor_fields s).2.2.2⟩
    | exact ⟨(openModuleViewer_fields s).1, (openModuleViewer_fields s).2.1,
        (openModuleViewer_fields s).2.2.2⟩
    | apply sameTool_ite
    | apply sameTool_emit

theorem openModuleEditor_trace (s : FrameState) :
    ∃ es, (openModuleEditor s).trace = s.trace ++ es ∧ Effect.CallEndMouseCapture ∉ es := by
  cases h : s.players.findIdx? (fun w => decide (w.kind = FRAME_T.FRAME_PCB_MODULE_EDITOR)) with
  | none =>
    exact ⟨_, by rw [openModuleEditor_create s h], by simp⟩
  | some i =>
    refine ⟨(if IsIconized s i = true then [Effect.Iconize i false] else [])
      ++ [Effect.Raise i] ++ (if s.focus ≠ some i then [Effect.SetFocus i] else [])
      ++ [Effect.PushPreferences i], ?_, ?_⟩
    · rw [openModuleEditor_reuse s i h]
      simp
    · by_cases hi : IsIconized s i = true <;> by_cases hf : s.focus = some i <;>
        simp [hi, hf]

theorem endsNoCapture_refl (s : FrameState) : endsNoCapture s s :=
  ⟨[], by simp, by simp⟩

theorem endsNoCapture_emit (s t : FrameState) (e : Effect) (h : endsNoCapture s t)
    (he : e ≠ Effect.CallEndMouseCapture) : endsNoCapture s (t.emit e) := by
  obtain ⟨es, h1, h2⟩ := h
  refine ⟨es ++ [e], by simp [FrameState.emit, h1], ?_⟩
  simp only [List.mem_append, List.mem_singleton, not_or]
  exact ⟨h2, fun h => he h.symm⟩

theorem endsNoCapture_ite (s a b : FrameState) (c : Prop) [Decidable c]
    (ha : endsNoCapture s a) (hb : endsNoCapture s b) :
    endsNoCapture s (if c then a else b) := by
  by_cases h : c
  · rw [if_pos h]
    exact ha
  · rw [if_neg h]
    exact hb

theorem endsNoCapture_selectLayer (L : LayerIds) (s : FrameState) :
    endsNoCapture s (selectLayerFromToolbar L s) := by
  by_cases h : s.m_ContrastModeDisplay = true
  · exact ⟨[Effect.Refresh], by simp [selectLayerFromToolbar, SetActiveLayer, h,
      FrameState.emit], by simp⟩
  · exact ⟨[], by simp [selectLayerFromToolbar, SetActiveLayer, h], by simp⟩

theorem execute_endsNoCapture (ids : CommandIds) (L : LayerIds) (s : FrameState) (id : Int) :
    endsNoCapture s (Process_Special_Functions_execute ids L s id) := by
  unfold Process_Special_Functions_execute
  repeat first
    | exact endsNoCapture_refl s
    | exact endsNoCapture_selectLayer L s
    | exact openModuleEditor_trace s
    | exact openModuleViewer_trace s
    | apply endsNoCapture_ite
    | refine endsNoCapture_emit s _ _ ?_ (by simp)

theorem execute_unhandled (ids : CommandIds) (L : LayerIds) (s : FrameState) (id : Int)
    (hun : isHandledId ids id = false) :
    Process_Special_Functions_execute ids L s id = s.emit (Effect.wxLogDebug id) := by
  simp only [isHandledId, Bool.or_eq_false_iff, decide_eq_false_iff_not] at hun
  obtain ⟨⟨⟨⟨⟨⟨⟨⟨⟨⟨⟨⟨⟨⟨h0, h1⟩, h2⟩, h3⟩, h4⟩, h5⟩, h6⟩, h7⟩, h8⟩, h9⟩, h10⟩, h11⟩, h12⟩, h13⟩,
    h14⟩ := hun
  simp only [Process_Special_Functions_execute, if_neg h0, if_neg h1, if_neg h2, if_neg h3,
    if_neg h4, if_neg h5, if_neg h6, if_neg h7, if_neg h8, if_neg h9, if_neg h10, if_neg h11,
    if_neg h12, if_neg h13, if_neg h14]

/-- The first `switch` written out: exempt ids leave the frame alone; every other id
ends a mouse capture in progress and, when it differs from the active tool, records
that tool and selects no tool. -/
theorem finish_eq (ids : CommandIds) (s : FrameState) (id : Int) :
    Process_Special_Functions_finish ids s id =
      if isExemptId ids id = true then s
      else
        { s with
          m_toolId := if s.m_toolId ≠ id then ids.ID_NO_TOOL_SELECTED else s.m_toolId
          m_lastDrawToolId := if s.m_toolId ≠ id then s.m_toolId else s.m_lastDrawToolId
          m_cursor := if s.m_toolId ≠ id then s.defaultCursor else s.m_cursor
          m_toolMsg := if s.m_toolId ≠ id then "" else s.m_toolMsg
          trace := s.trace
            ++ (if s.mouseCaptured = true then [Effect.CallEndMouseCapture] else []) } := by
  unfold Process_Special_Functions_finish
  by_cases hex : isExemptId ids id = true
  · simp [hex]
  · rcases s with ⟨tool, last, layer, cap, cnt, con, sel, pl, foc, tr, cur, msg, dcur, drc, zm⟩
    by_cases hc : cap = true <;> by_cases ht : tool = id <;> by_cases hl : last = tool <;>
      simp_all [FrameState.emit, SetNoToolSelected, SetToolID]

theorem Process_sameTool (ids : CommandIds) (L : LayerIds) (s : FrameState) (id : Int) :
    sameTool (Process_Special_Functions_finish ids (s.emit Effect.CrossHairOff) id)
      (Process_Special_Functions ids L s id) :=
  execute_sameTool ids L _ id

theorem finish_fields (ids : CommandIds) (s : FrameState) (id : Int) :
    (Process_Special_Functions_finish ids s id).activeLayer = s.activeLayer
    ∧ (Process_Special_Functions_finish ids s id).copperLayerCount = s.copperLayerCount
    ∧ (Process_Special_Functions_finish ids s id).layerSelection = s.layerSelection
    ∧ (Process_Special_Functions_finish ids s id).players = s.players
    ∧ (Process_Special_Functions_finish ids s id).focus = s.focus := by
  rw [finish_eq]
  by_cases hex : isExemptId ids id = true <;> simp [hex]

theorem Process_trace (ids : CommandIds) (L : LayerIds) (s : FrameState) (id : Int) :
    ∃ rest, (Process_Special_Functions ids L s id).trace
        = (Process_Special_Functions_finish ids (s.emit Effect.CrossHairOff) id).trace ++ rest
      ∧ Effect.CallEndMouseCapture ∉ rest := by
  obtain ⟨es, h1, h2⟩ := execute_endsNoCapture ids L
    (Process_Special_Functions_finish ids (s.emit Effect.CrossHairOff) id) id
  refine ⟨es ++ [Effect.CrossHairOn, Effect.SetIgnoreMouseEvents false], ?_, by simp [h2]⟩
  show (Process_Special_Functions_execute ids L
      (Process_Special_Functions_finish ids (s.emit Effect.CrossHairOff) id) id).trace
        ++ [Effect.CrossHairOn] ++ [Effect.SetIgnoreMouseEvents false] = _
  rw [h1]
  simp

theorem finish_trace (ids : CommandIds) (s : FrameState) (id : Int) :
    (Process_Special_Functions_finish ids (s.emit Effect.CrossHairOff) id).trace
      = s.trace ++ (Effect.CrossHairOff ::
          (if isExemptId ids id = false ∧ s.mouseCaptured = true then
            [Effect.CallEndMouseCapture] else [])) := by
  rw [finish_eq]
  by_cases hex : isExemptId ids id = true <;> by_cases hc : s.mouseCaptured = true <;>
    simp [hex, hc, FrameState.emit]

theorem finish_tool_of_keep (ids : CommandIds) (s : FrameState) (id : Int)
    (h : isExemptId ids id = true ∨ id = s.m_toolId) :
    (Process_Special_Functions_finish ids (s.emit Effect.CrossHairOff) id).m_toolId
        = s.m_toolId
    ∧ (Process_Special_Functions_finish ids (s.emit Effect.CrossHairOff) id).m_lastDrawToolId
        = s.m_lastDrawToolId := by
  rw [finish_eq]
  by_cases hex : isExemptId ids id = true
  · simp [hex, FrameState.emit]
  · rcases h with h | h
    · exact absurd h hex
    · subst h
      simp [hex, FrameState.emit]

theorem finish_tool_of_reset (ids : CommandIds) (s : FrameState) (id : Int)
    (hex : isExemptId ids id = false) (hne : id ≠ s.m_toolId) :
    (Process_Special_Functions_finish ids (s.emit Effect.CrossHairOff) id).m_toolId
        = ids.ID_NO_TOOL_SELECTED
    ∧ (Process_Special_Functions_finish ids (s.emit Effect.CrossHairOff) id).m_lastDrawToolId
        = s.m_toolId := by
  rw [finish_eq]
  have hne2 : s.m_toolId ≠ id := fun h => hne h.symm
  simp [hex, FrameState.emit, hne2]

/-- C5, the claim as stated fails: id 9999 is not a case label of the dispatcher, a
drawing tool (id 6200) is active, and the dispatch replaces the active tool by "no tool
selected" and records 6200 as the last drawing tool. -/
theorem unknown_id_resets_tool :
    isHandledId sampleIds 9999 = false
    ∧ (sampleFrame 2 false).m_toolId = 6200
    ∧ (sampleFrame 2 false).m_lastDrawToolId = 6001
    ∧ (Process_Special_Functions sampleIds pcbLayers (sampleFrame 2 false) 9999).m_toolId
        = sampleIds.ID_NO_TOOL_SELECTED
    ∧ (Process_Special_Functions sampleIds pcbLayers (sampleFrame 2 false)
        9999).m_lastDrawToolId = 6200
    ∧ sampleIds.ID_NO_TOOL_SELECTED ≠ 6200 := by
  decide

/-- C5 as amended: for an id that is not a case label of the second `switch`, the
dispatch leaves the active layer unchanged and the only command action is the
diagnostic log.  The tool state is unchanged when the id is exempt (`wxID_CUT`,
`wxID_COPY`) or equals the active tool id; for any other such id the current command is
finished first: a mouse capture in progress is ended, the active tool becomes "no tool
selected" and `m_lastDrawToolId` holds the tool id that was active on entry. -/
theorem unhandled_id_effect (ids : CommandIds) (L : LayerIds) (s : FrameState) (id : Int)
    (hun : isHandledId ids id = false) :
    (Process_Special_Functions ids L s id).activeLayer = s.activeLayer
    ∧ (isExemptId ids id = true ∨ id = s.m_toolId →
        (Process_Special_Functions ids L s id).m_toolId = s.m_toolId
        ∧ (Process_Special_Functions ids L s id).m_lastDrawToolId = s.m_lastDrawToolId)
    ∧ (isExemptId ids id = false → id ≠ s.m_toolId →
        (Process_Special_Functions ids L s id).m_toolId = ids.ID_NO_TOOL_SELECTED
        ∧ (Process_Special_Functions ids L s id).m_lastDrawToolId = s.m_toolId)
    ∧ emitted s (Process_Special_Functions ids L s id)
        = Effect.CrossHairOff ::
            ((if isExemptId ids id = false ∧ s.mouseCaptured = true then
                [Effect.CallEndMouseCapture] else [])
              ++ [Effect.wxLogDebug id, Effect.CrossHairOn,
                  Effect.SetIgnoreMouseEvents false]) := by
  have hT := Process_sameTool ids L s id
  refine ⟨?_, ?_, ?_, ?_⟩
  · show (Process_Special_Functions_execute ids L _ id).activeLayer = _
    rw [execute_unhandled ids L _ id hun]
    exact (finish_fields ids _ id).1
  · intro h
    rw [hT.1, hT.2.1]
    exact finish_tool_of_keep ids s id h
  · intro hex hne
    rw [hT.1, hT.2.1]
    exact finish_tool_of_reset ids s id hex hne
  · apply emitted_append
    show (Process_Special_Functions_execute ids L
      (Process_Special_Functions_finish ids (s.emit Effect.CrossHairOff) id) id).trace
        ++ [Effect.CrossHairOn] ++ [Effect.SetIgnoreMouseEvents false] = _
    rw [execute_unhandled ids L _ id hun]
    show (Process_Special_Functions_finish ids (s.emit Effect.CrossHairOff) id).trace
        ++ [Effect.wxLogDebug id] ++ [Effect.CrossHairOn]
        ++ [Effect.SetIgnoreMouseEvents false] = _
    rw [finish_trace]
    simp

/-- Witness for the amended C5: id 9999 is no case label for the sample identifiers. -/
theorem unhandled_id_effect_witness :
    isHandledId sampleIds 9999 = false
    ∧ (Process_Special_Functions sampleIds pcbLayers (sampleFrame 2 false) 9999).activeLayer
        = (sampleFrame 2 false).activeLayer :=
  ⟨by decide,
    (unhandled_id_effect sampleIds pcbLayers (sampleFrame 2 false) 9999 (by decide)).1⟩

/-- C6: for every exempt id (`wxID_CUT`, `wxID_COPY`, `ID_TOOLBARH_PCB_SELECT_LAYER`,
`ID_AUX_TOOLBAR_PCB_SELECT_LAYER_PAIR`) and every prior state, the dispatch makes no
call that ends a mouse capture, and the active tool id and `m_lastDrawToolId` are the
same after the call as before. -/
theorem exempt_id_keeps_tool (ids : CommandIds) (L : LayerIds) (s : FrameState) (id : Int)
    (hex : isExemptId ids id = true) :
    Effect.CallEndMouseCapture ∉ emitted s (Process_Special_Functions ids L s id)
    ∧ (Process_Special_Functions ids L s id).m_toolId = s.m_toolId
    ∧ (Process_Special_Functions ids L s id).m_lastDrawToolId = s.m_lastDrawToolId := by
  have hT := Process_sameTool ids L s id
  have hk := finish_tool_of_keep ids s id (Or.inl hex)
  refine ⟨?_, by rw [hT.1]; exact hk.1, by rw [hT.2.1]; exact hk.2⟩
  obtain ⟨rest, h1, h2⟩ := Process_trace ids L s id
  rw [finish_trace, List.append_assoc] at h1
  rw [emitted_append s _ _ h1]
  simp [hex, h2]

/-- Witness for C6 on the sample identifiers: each of the four exempt ids is exempt, and
dispatching `wxID_CUT` with a capture in progress keeps the drawing tool 6200 active. -/
theorem exempt_id_keeps_tool_witness :
    isExemptId sampleIds sampleIds.wxID_CUT = true
    ∧ isExemptId sampleIds sampleIds.wxID_COPY = true
    ∧ isExemptId sampleIds sampleIds.ID_TOOLBARH_PCB_SELECT_LAYER = true
    ∧ isExemptId sampleIds sampleIds.ID_AUX_TOOLBAR_PCB_SELECT_LAYER_PAIR = true
    ∧ (Process_Special_Functions sampleIds pcbLayers (sampleFrame 2 true)
        sampleIds.wxID_CUT).m_toolId = 6200 :=
  ⟨by decide, by decide, by decide, by decide,
    (exempt_id_keeps_tool sampleIds pcbLayers (sampleFrame 2 true) sampleIds.wxID_CUT
      (by decide)).2.1⟩

/-- C7: for every id that is not exempt and differs from the active tool id, the state
handed to the command's action (the state after the first `switch`) already has the
active tool reset to "no tool selected" and `m_lastDrawToolId` equal to the tool id
active on entry, and a mouse capture in progress has been ended by then; the command's
action and the closing statements follow, without another end-of-capture call and
without touching the two tool fields. -/
theorem nonexempt_id_finishes_tool (ids : CommandIds) (L : LayerIds) (s : FrameState)
    (id : Int) (hex : isExemptId ids id = false) (hne : id ≠ s.m_toolId) :
    (Process_Special_Functions_finish ids (s.emit Effect.CrossHairOff) id).m_toolId
        = ids.ID_NO_TOOL_SELECTED
    ∧ (Process_Special_Functions_finish ids (s.emit Effect.CrossHairOff) id).m_lastDrawToolId
        = s.m_toolId
    ∧ emitted s (Process_Special_Functions_finish ids (s.emit Effect.CrossHairOff) id)
        = Effect.CrossHairOff ::
            (if s.mouseCaptured = true then [Effect.CallEndMouseCapture] else [])
    ∧ Process_Special_Functions ids L s id
        = Process_Special_Functions_epilogue (Process_Special_Functions_execute ids L
            (Process_Special_Functions_finish ids (s.emit Effect.CrossHairOff) id) id)
    ∧ (∃ rest, emitted s (Process_Special_Functions ids L s id)
          = emitted s (Process_Special_Functions_finish ids (s.emit Effect.CrossHairOff) id)
              ++ rest
        ∧ Effect.CallEndMouseCapture ∉ rest)
    ∧ (Process_Special_Functions ids L s id).m_toolId = ids.ID_NO_TOOL_SELECTED
    ∧ (Process_Special_Functions ids L s id).m_lastDrawToolId = s.m_toolId := by
  have hT := Process_sameTool ids L s id
  have hr := finish_tool_of_reset ids s id hex hne
  have hft : emitted s (Process_Special_Functions_finish ids (s.emit Effect.CrossHairOff) id)
      = Effect.CrossHairOff ::
          (if s.mouseCaptured = true then [Effect.CallEndMouseCapture] else []) := by
    apply emitted_append
    rw [finish_trace]
    simp [hex]
  refine ⟨hr.1, hr.2, hft, rfl, ?_, by rw [hT.1]; exact hr.1, by rw [hT.2.1]; exact hr.2⟩
  obtain ⟨rest, h1, h2⟩ := Process_trace ids L s id
  refine ⟨rest, ?_, h2⟩
  rw [hft]
  apply emitted_append
  rw [h1, finish_trace]
  simp [hex]

/-- Witness for C7 on the sample identifiers: dispatching `ID_DRC_CONTROL` while the
drawing tool 6200 is active with a capture in progress ends the capture before the DRC
dialog is shown, and leaves no tool selected with 6200 remembered. -/
theorem nonexempt_id_finishes_tool_witness :
    isExemptId sampleIds sampleIds.ID_DRC_CONTROL = false
    ∧ sampleIds.ID_DRC_CONTROL ≠ (sampleFrame 2 false).m_toolId
    ∧ (Process_Special_Functions sampleIds pcbLayers (sampleFrame 2 false)
        sampleIds.ID_DRC_CONTROL).m_toolId = sampleIds.ID_NO_TOOL_SELECTED
    ∧ (Process_Special_Functions sampleIds pcbLayers (sampleFrame 2 false)
        sampleIds.ID_DRC_CONTROL).trace
        = [Effect.CrossHairOff, Effect.CallEndMouseCapture, Effect.ShowDRCDialog,
            Effect.CrossHairOn, Effect.SetIgnoreMouseEvents false] :=
  ⟨by decide, by decide,
    (nonexempt_id_finishes_tool sampleIds pcbLayers (sampleFrame 2 false)
      sampleIds.ID_DRC_CONTROL (by decide) (by decide)).2.2.2.2.2.1,
    by decide⟩

/-! ## The footprint-editor window is opened once -/

theorem countP_modify_of_eq {α : Type} (p : α → Bool) (g : α → α) (hg : ∀ a, p (g a) = p a) :
    ∀ (l : List α) (n : Nat), (l.modify g n).countP p = l.countP p := by
  intro l
  induction l with
  | nil => intro n; simp
  | cons a l ih =>
    intro n
    cases n with
    | zero => simp [List.countP_cons, hg]
    | succ n => simp [List.countP_cons, ih n]

theorem findIdx_none_iff_editorCount (s : FrameState) :
    s.players.findIdx? (fun w => decide (w.kind = FRAME_T.FRAME_PCB_MODULE_EDITOR)) = none
      ↔ editorCount s = 0 := by
  unfold editorCount
  rw [List.findIdx?_eq_none_iff, List.countP_eq_zero]
  constructor
  · intro h a ha
    simp [h a ha]
  · intro h a ha
    simpa using h a ha

theorem openEditorCommand_eq (ids : CommandIds) (L : LayerIds) (s : FrameState)
    (hid : ids.ID_OPEN_MODULE_EDITOR ≠ 0) :
    openEditorCommand ids L s
      = Process_Special_Functions_epilogue (openModuleEditor
          (Process_Special_Functions_finish ids (s.emit Effect.CrossHairOff)
            ids.ID_OPEN_MODULE_EDITOR)) := by
  simp [openEditorCommand, Process_Special_Functions, Process_Special_Functions_execute, hid]

theorem IsIconized_congr (s t : FrameState) (i : Nat) (h : t.players = s.players) :
    IsIconized t i = IsIconized s i := by
  simp [IsIconized, h]

theorem openEditorCommand_create (ids : CommandIds) (L : LayerIds) (s : FrameState)
    (hid : ids.ID_OPEN_MODULE_EDITOR ≠ 0)
    (h : s.players.findIdx? (fun w => decide (w.kind = FRAME_T.FRAME_PCB_MODULE_EDITOR)) = none) :
    (openEditorCommand ids L s).players
        = s.players ++ [{ kind := FRAME_T.FRAME_PCB_MODULE_EDITOR, iconized := false }]
    ∧ Effect.CreateWindow FRAME_T.FRAME_PCB_MODULE_EDITOR
        ∈ emitted s (openEditorCommand ids L s) := by
  have hp : (Process_Special_Functions_finish ids (s.emit Effect.CrossHairOff)
      ids.ID_OPEN_MODULE_EDITOR).players = s.players :=
    (finish_fields ids (s.emit Effect.CrossHairOff) ids.ID_OPEN_MODULE_EDITOR).2.2.2.1
  have ht := finish_trace ids s ids.ID_OPEN_MODULE_EDITOR
  rw [openEditorCommand_eq ids L s hid]
  generalize Process_Special_Functions_finish ids (s.emit Effect.CrossHairOff)
    ids.ID_OPEN_MODULE_EDITOR = t at hp ht
  rw [openModuleEditor_create t (by rw [hp]; exact h)]
  simp [Process_Special_Functions_epilogue, FrameState.emit, hp, ht, emitted]

theorem openEditorCommand_reuse (ids : CommandIds) (L : LayerIds) (s : FrameState) (i : Nat)
    (hid : ids.ID_OPEN_MODULE_EDITOR ≠ 0)
    (h : s.players.findIdx? (fun w => decide (w.kind = FRAME_T.FRAME_PCB_MODULE_EDITOR))
      = some i) :
    (openEditorCommand ids L s).players
        = (if IsIconized s i = true then
            s.players.modify (fun w => { w with iconized := false }) i
          else s.players)
    ∧ (openEditorCommand ids L s).focus = some i
    ∧ emitted s (openEditorCommand ids L s)
        = Effect.CrossHairOff ::
            ((if isExemptId ids ids.ID_OPEN_MODULE_EDITOR = false ∧ s.mouseCaptured = true then
                [Effect.CallEndMouseCapture] else [])
            ++ (if IsIconized s i = true then [Effect.Iconize i false] else [])
            ++ [Effect.Raise i]
            ++ (if s.focus ≠ some i then [Effect.SetFocus i] else [])
            ++ [Effect.PushPreferences i, Effect.CrossHairOn,
                Effect.SetIgnoreMouseEvents false]) := by
  have hp : (Process_Special_Functions_finish ids (s.emit Effect.CrossHairOff)
      ids.ID_OPEN_MODULE_EDITOR).players = s.players :=
    (finish_fields ids (s.emit Effect.CrossHairOff) ids.ID_OPEN_MODULE_EDITOR).2.2.2.1
  have hf : (Process_Special_Functions_finish ids (s.emit Effect.CrossHairOff)
      ids.ID_OPEN_MODULE_EDITOR).focus = s.focus :=
    (finish_fields ids (s.emit Effect.CrossHairOff) ids.ID_OPEN_MODULE_EDITOR).2.2.2.2
  have ht := finish_trace ids s ids.ID_OPEN_MODULE_EDITOR
  rw [openEditorCommand_eq ids L s hid]
  generalize Process_Special_Functions_finish ids (s.emit Effect.CrossHairOff)
    ids.ID_OPEN_MODULE_EDITOR = t at hp hf ht
  rw [openModuleEditor_reuse t i (by rw [hp]; exact h)]
  have hi := IsIconized_congr s t i hp
  refine ⟨by simp [Process_Special_Functions_epilogue, FrameState.emit, hp, hi],
    by simp [Process_Special_Functions_epilogue, FrameState.emit], ?_⟩
  apply emitted_append
  simp [Process_Special_Functions_epilogue, FrameState.emit, hp, hf, ht, hi]

/-- One dispatch of the open-editor command, from a state with at most one editor
window, leaves exactly one. -/
theorem openEditorCommand_editorCount (ids : CommandIds) (L : LayerIds) (s : FrameState)
    (hid : ids.ID_OPEN_MODULE_EDITOR ≠ 0) (hone : editorCount s ≤ 1) :
    editorCount (openEditorCommand ids L s) = 1 := by
  cases h : s.players.findIdx? (fun w => decide (w.kind = FRAME_T.FRAME_PCB_MODULE_EDITOR)) with
  | none =>
    have h0 := (findIdx_none_iff_editorCount s).1 h
    unfold editorCount at h0 ⊢
    rw [(openEditorCommand_create ids L s hid h).1, List.countP_append, h0]
    simp
  | some i =>
    have h0 : editorCount s ≠ 0 := by
      intro h0
      rw [(findIdx_none_iff_editorCount s).2 h0] at h
      exact Option.noConfusion h
    have h1 : editorCount s = 1 := by omega
    unfold editorCount at h1 ⊢
    rw [(openEditorCommand_reuse ids L s i hid h).1]
    by_cases hi : IsIconized s i = true
    · rw [if_pos hi, countP_modify_of_eq _ _ (by intro a; rfl)]
      exact h1
    · rw [if_neg hi]
      exact h1

theorem openEditorCommand_iterate (ids : CommandIds) (L : LayerIds) (s : FrameState)
    (hid : ids.ID_OPEN_MODULE_EDITOR ≠ 0) (hone : editorCount s ≤ 1) :
    ∀ N : Nat, 1 ≤ N → editorCount ((openEditorCommand ids L)^[N] s) = 1 := by
  have inv : ∀ N : Nat, editorCount ((openEditorCommand ids L)^[N] s) ≤ 1 := by
    intro N
    induction N with
    | zero => exact hone
    | succ n ih =>
      rw [Function.iterate_succ_apply']
      exact le_of_eq (openEditorCommand_editorCount ids L _ hid ih)
  intro N hN
  obtain ⟨n, rfl⟩ : ∃ n, N = n + 1 := ⟨N - 1, by omega⟩
  rw [Function.iterate_succ_apply']
  exact openEditorCommand_editorCount ids L _ hid (inv n)

/-- The window a reusing dispatch leaves at the editor's handle is an editor window that
is not iconized. -/
theorem openEditorCommand_reuse_window (ids : CommandIds) (L : LayerIds) (s : FrameState)
    (i : Nat) (hid : ids.ID_OPEN_MODULE_EDITOR ≠ 0)
    (h : s.players.findIdx? (fun w => decide (w.kind = FRAME_T.FRAME_PCB_MODULE_EDITOR))
      = some i) :
    (openEditorCommand ids L s).players.get? i
      = some { kind := FRAME_T.FRAME_PCB_MODULE_EDITOR, iconized := false } := by
  rw [(openEditorCommand_reuse ids L s i hid h).1]
  obtain ⟨hlt, hk, _⟩ := List.findIdx?_eq_some_iff_getElem.1 h
  have hk2 : (s.players[i]).kind = FRAME_T.FRAME_PCB_MODULE_EDITOR := by simpa using hk
  have hget : s.players.get? i = some s.players[i] := by
    simp [List.getElem?_eq_getElem hlt]
  by_cases hi : IsIconized s i = true
  · rw [if_pos hi]
    simp [List.getElem?_modify_eq, List.getElem?_eq_getElem hlt, hk2]
  · rw [if_neg hi, hget]
    have hic : (s.players[i]).iconized = false := by
      have h2 : IsIconized s i = (s.players[i]).iconized := by
        unfold IsIconized
        rw [hget]
      rw [← h2]
      simpa using hi
    rcases hw : s.players[i] with ⟨k, ic⟩
    rw [hw] at hk2 hic
    simp only at hk2 hic
    rw [hk2, hic]

theorem openEditorCommand_reuse_calls (ids : CommandIds) (L : LayerIds) (s : FrameState)
    (i : Nat) (hid : ids.ID_OPEN_MODULE_EDITOR ≠ 0)
    (h : s.players.findIdx? (fun w => decide (w.kind = FRAME_T.FRAME_PCB_MODULE_EDITOR))
      = some i) :
    (openEditorCommand ids L s).players.length = s.players.length
    ∧ Effect.CreateWindow FRAME_T.FRAME_PCB_MODULE_EDITOR
        ∉ emitted s (openEditorCommand ids L s)
    ∧ Effect.Raise i ∈ emitted s (openEditorCommand ids L s) := by
  obtain ⟨hp, _, he⟩ := openEditorCommand_reuse ids L s i hid h
  refine ⟨?_, ?_, ?_⟩
  · rw [hp]
    by_cases hi : IsIconized s i = true
    · rw [if_pos hi, List.length_modify]
    · rw [if_neg hi]
  · rw [he]
    by_cases hc : isExemptId ids ids.ID_OPEN_MODULE_EDITOR = false ∧ s.mouseCaptured = true <;>
      by_cases hi : IsIconized s i = true <;> by_cases hf : s.focus = some i <;>
      simp [hc, hi, hf]
  · rw [he]
    simp

/-- C9: dispatching `ID_OPEN_MODULE_EDITOR` any number `N >= 1` of times, from a state
in which the window manager holds at most one footprint-editor window, leaves exactly
one live footprint-editor window.  The first dispatch creates a window exactly when
none exists.  After `N >= 1` dispatches the next one reuses the window found at its
handle: no window is created, the list of live windows keeps its length, the window at
the handle is an editor window that is not iconized, it is raised, and it has the
focus. -/
theorem openEditor_idempotent (ids : CommandIds) (L : LayerIds) (s : FrameState) (N : Nat)
    (hid : ids.ID_OPEN_MODULE_EDITOR ≠ 0) (hone : editorCount s ≤ 1) (hN : 1 ≤ N) :
    editorCount ((openEditorCommand ids L)^[N] s) = 1
    ∧ (Effect.CreateWindow FRAME_T.FRAME_PCB_MODULE_EDITOR
          ∈ emitted s (openEditorCommand ids L s) ↔ editorCount s = 0)
    ∧ (∃ i,
        ((openEditorCommand ids L)^[N] s).players.findIdx?
            (fun w => decide (w.kind = FRAME_T.FRAME_PCB_MODULE_EDITOR)) = some i
        ∧ (openEditorCommand ids L ((openEditorCommand ids L)^[N] s)).players.length
            = ((openEditorCommand ids L)^[N] s).players.length
        ∧ Effect.CreateWindow FRAME_T.FRAME_PCB_MODULE_EDITOR
            ∉ emitted ((openEditorCommand ids L)^[N] s)
                (openEditorCommand ids L ((openEditorCommand ids L)^[N] s))
        ∧ (openEditorCommand ids L ((openEditorCommand ids L)^[N] s)).players.get? i
            = some { kind := FRAME_T.FRAME_PCB_MODULE_EDITOR, iconized := false }
        ∧ Effect.Raise i
            ∈ emitted ((openEditorCommand ids L)^[N] s)
                (openEditorCommand ids L ((openEditorCommand ids L)^[N] s))
        ∧ (openEditorCommand ids L ((openEditorCommand ids L)^[N] s)).focus = some i) := by
  have hcount := openEditorCommand_iterate ids L s hid hone N hN
  refine ⟨hcount, ?_, ?_⟩
  · cases h : s.players.findIdx?
        (fun w => decide (w.kind = FRAME_T.FRAME_PCB_MODULE_EDITOR)) with
    | none =>
      exact ⟨fun _ => (findIdx_none_iff_editorCount s).1 h,
        fun _ => (openEditorCommand_create ids L s hid h).2⟩
    | some i =>
      constructor
      · intro hm
        exact absurd hm (openEditorCommand_reuse_calls ids L s i hid h).2.1
      · intro h0
        rw [(findIdx_none_iff_editorCount s).2 h0] at h
        exact Option.noConfusion h
  · generalize (openEditorCommand ids L)^[N] s = t at hcount
    cases h : t.players.findIdx?
        (fun w => decide (w.kind = FRAME_T.FRAME_PCB_MODULE_EDITOR)) with
    | none =>
      rw [(findIdx_none_iff_editorCount t).1 h] at hcount
      exact absurd hcount (by decide)
    | some i =>
      obtain ⟨h1, h2, h3⟩ := openEditorCommand_reuse_calls ids L t i hid h
      exact ⟨i, rfl, h1, h2, openEditorCommand_reuse_window ids L t i hid h, h3,
        (openEditorCommand_reuse ids L t i hid h).2.1⟩

/-- Witness for C9 on the sample identifiers: two dispatches from a frame with no
sub-window, and two from a frame with an iconized editor, each leave one editor. -/
theorem openEditor_idempotent_witness :
    sampleIds.ID_OPEN_MODULE_EDITOR ≠ 0
    ∧ editorCount (sampleFrame 2 false) ≤ 1
    ∧ editorCount sampleFrameWithEditor ≤ 1
    ∧ editorCount ((openEditorCommand sampleIds pcbLayers)^[2] (sampleFrame 2 false)) = 1
    ∧ editorCount ((openEditorCommand sampleIds pcbLayers)^[2] sampleFrameWithEditor) = 1 :=
  ⟨by decide, by decide, by decide,
    (openEditor_idempotent sampleIds pcbLayers (sampleFrame 2 false) 2 (by decide) (by decide)
      (by decide)).1,
    (openEditor_idempotent sampleIds pcbLayers sampleFrameWithEditor 2 (by decide) (by decide)
      (by decide)).1⟩

/-! ## `OnSelectTool`: tool activation -/

theorem activatesButton_ite (ids : CommandIds) (T : ToolIds) (s a b : FrameState) (id : Int)
    (c : Prop) [Decidable c]
    (ha : c → activatesButton ids T s id a) (hb : ¬ c → activatesButton ids T s id b) :
    activatesButton ids T s id (if c then a else b) := by
  by_cases h : c
  · rw [if_pos h]
    exact ha h
  · rw [if_neg h]
    exact hb h

theorem OnSelectTool_activatesButton (ids : CommandIds) (T : ToolIds) (s : FrameState)
    (id : Int) : activatesButton ids T s id (OnSelectTool ids T s id) := by
  unfold OnSelectTool
  simp only []
  repeat first
    | refine activatesButton_ite ids T s _ _ id _ (fun h => ?_) (fun h => ?_)
    | exact (by
        unfold activatesButton
        intro hno hzoom hmem
        simp_all [toolButtonTable, SetToolID, EndMouseCapture, FrameState.emit,
          SetNoToolSelected])

theorem toolStateComplete_ite (ids : CommandIds) (T : ToolIds) (s a b : FrameState)
    (c : Prop) [Decidable c]
    (ha : c → toolStateComplete ids T s a) (hb : ¬ c → toolStateComplete ids T s b) :
    toolStateComplete ids T s (if c then a else b) := by
  by_cases h : c
  · rw [if_pos h]
    exact ha h
  · rw [if_neg h]
    exact hb h

theorem OnSelectTool_toolStateComplete (ids : CommandIds) (T : ToolIds) (s : FrameState)
    (id : Int) : toolStateComplete ids T s (OnSelectTool ids T s id) := by
  unfold OnSelectTool
  simp only []
  repeat first
    | refine toolStateComplete_ite ids T s _ _ _ (fun h => ?_) (fun h => ?_)
    | exact (by
        unfold toolStateComplete toolTriple
        simp_all [toolButtonTable, SetToolID, EndMouseCapture, FrameState.emit,
          SetNoToolSelected])

/-- In a list of entries with pairwise distinct keys, a key has one entry. -/
theorem entry_unique {α : Type} (l : List (Int × α)) (hnd : (l.map Prod.fst).Nodup)
    (k : Int) (v w : α) (hv : (k, v) ∈ l) (hw : (k, w) ∈ l) : v = w := by
  induction l with
  | nil => simp at hv
  | cons e l ih =>
    simp only [List.map_cons, List.nodup_cons, List.mem_map, not_exists, not_and] at hnd
    rcases List.mem_cons.1 hv with hv | hv <;> rcases List.mem_cons.1 hw with hw | hw
    · rw [← hv] at hw
      exact (Prod.mk.inj hw).2.symm
    · exact absurd (by rw [← hv]) (hnd.1 (k, w) hw)
    · exact absurd (by rw [← hw]) (hnd.1 (k, v) hv)
    · exact ih hnd.2 hv hw

/-- C11: with pairwise distinct case labels, for every tool button of the table (track,
zones, keepout, target, the two origin buttons, the graphic, text, footprint, dimension,
delete, highlight, ratsnest and GAL-only buttons) `OnSelectTool` leaves the active tool
id equal to the button id, together with the cursor glyph and the status hint of that
case; `ID_NO_TOOL_SELECTED` leaves the idle tool with the default cursor and an empty
hint; and for every id whatever, the three are a complete tool state (idle, zoom, or a
table entry), never a mixture. -/
theorem OnSelectTool_sets_tool_cursor_hint (ids : CommandIds) (T : ToolIds) (s : FrameState)
    (hnd : (toolCaseLabels ids T).Nodup) :
    (∀ id cursor msg, (id, cursor, msg) ∈ toolButtonTable T s →
        toolTriple (OnSelectTool ids T s id) = (id, cursor, msg))
    ∧ toolTriple (OnSelectTool ids T s ids.ID_NO_TOOL_SELECTED)
        = (ids.ID_NO_TOOL_SELECTED, s.defaultCursor, "")
    ∧ (∀ id, toolStateComplete ids T s (OnSelectTool ids T s id)) := by
  have hkeys : toolCaseLabels ids T
      = ids.ID_NO_TOOL_SELECTED :: T.ID_ZOOM_SELECTION
          :: (toolButtonTable T s).map Prod.fst := rfl
  rw [hkeys, List.nodup_cons, List.nodup_cons] at hnd
  obtain ⟨hno, hzoom, htab⟩ := hnd
  refine ⟨?_, ?_, fun id => OnSelectTool_toolStateComplete ids T s id⟩
  · intro id cursor msg hmem
    have hk : id ∈ (toolButtonTable T s).map Prod.fst :=
      List.mem_map.2 ⟨(id, cursor, msg), hmem, rfl⟩
    have h1 : id ≠ ids.ID_NO_TOOL_SELECTED := by
      intro h
      exact hno (List.mem_cons_of_mem _ (h ▸ hk))
    have h2 : id ≠ T.ID_ZOOM_SELECTION := by
      intro h
      exact hzoom (h ▸ hk)
    obtain ⟨hid, hent⟩ := OnSelectTool_activatesButton ids T s id h1 h2 hk
    have hu := entry_unique (toolButtonTable T s) htab id _ _ hent hmem
    unfold toolTriple
    rw [hid, ← hu]
  · simp [OnSelectTool, toolTriple, SetNoToolSelected, SetToolID, EndMouseCapture,
      FrameState.emit]

/-- Witness for C11 on the sample identifiers: the sample case labels are pairwise
distinct, and the track button leaves the track tool active with the pencil cursor and
the hint "Add tracks". -/
theorem OnSelectTool_sets_tool_cursor_hint_witness :
    (toolCaseLabels sampleIds sampleTools).Nodup
    ∧ toolTriple (OnSelectTool sampleIds sampleTools (sampleFrame 2 false)
        sampleTools.ID_TRACK_BUTT)
        = (sampleTools.ID_TRACK_BUTT, sampleTools.wxCURSOR_PENCIL, "Add tracks") :=
  ⟨by decide,
    (OnSelectTool_sets_tool_cursor_hint sampleIds sampleTools (sampleFrame 2 false)
      (by decide)).1 _ _ _ (by simp [toolButtonTable, sampleTools, sampleFrame,
        sampleFrameOn])⟩

/-! ## The dispatcher: an id equal to the active tool -/

/-- C14: for an id that is not exempt and equals the active tool id, the dispatcher
still ends a mouse capture in progress, once and before the command's action, but the
active tool id and `m_lastDrawToolId` are the same after the call as before. -/
theorem same_tool_id_keeps_tool (ids : CommandIds) (L : LayerIds) (s : FrameState) (id : Int)
    (hex : isExemptId ids id = false) (heq : id = s.m_toolId) :
    (Process_Special_Functions ids L s id).m_toolId = s.m_toolId
    ∧ (Process_Special_Functions ids L s id).m_lastDrawToolId = s.m_lastDrawToolId
    ∧ (s.mouseCaptured = true →
        Effect.CallEndMouseCapture ∈ emitted s (Process_Special_Functions ids L s id))
    ∧ (∃ rest, emitted s (Process_Special_Functions ids L s id)
          = Effect.CrossHairOff ::
              ((if s.mouseCaptured = true then [Effect.CallEndMouseCapture] else []) ++ rest)
        ∧ Effect.CallEndMouseCapture ∉ rest) := by
  have hT := Process_sameTool ids L s id
  have hk := finish_tool_of_keep ids s id (Or.inr heq)
  obtain ⟨rest, h1, h2⟩ := Process_trace ids L s id
  rw [finish_trace, List.append_assoc] at h1
  have hem := emitted_append s _ _ h1
  refine ⟨by rw [hT.1]; exact hk.1, by rw [hT.2.1]; exact hk.2, ?_, rest, ?_, h2⟩
  · intro hc
    rw [hem]
    simp [hex, hc]
  · rw [hem]
    simp [hex]

/-- Witness for C14 on the sample identifiers: dispatching the id of the active drawing
tool (6200) with a capture in progress ends the capture and keeps the tool. -/
theorem same_tool_id_keeps_tool_witness :
    isExemptId sampleIds 6200 = false
    ∧ (6200 : Int) = (sampleFrame 2 false).m_toolId
    ∧ (Process_Special_Functions sampleIds pcbLayers (sampleFrame 2 false) 6200).m_toolId = 6200
    ∧ (Process_Special_Functions sampleIds pcbLayers (sampleFrame 2 false) 6200).trace
        = [Effect.CrossHairOff, Effect.CallEndMouseCapture, Effect.wxLogDebug 6200,
            Effect.CrossHairOn, Effect.SetIgnoreMouseEvents false] :=
  ⟨by decide, by decide,
    (same_tool_id_keeps_tool sampleIds pcbLayers (sampleFrame 2 false) 6200 (by decide)
      (by decide)).1,
    by decide⟩

end PcbEdit

namespace SchFind

/-! ## Bits of the mask and of the compare flags -/

theorem testBit_bitNot32 (x i : Nat) :
    (bitNot32 x).testBit i = (decide (i < 32) && !(x.testBit i)) := by
  unfold bitNot32
  rw [Nat.testBit_xor, Nat.testBit_two_pow_sub_one, Nat.testBit_mod_two_pow]
  by_cases h : i < 32 <;> simp [h]

theorem testBit_GetCompareFlags (W : WxFindReplaceFlags) (d : SCH_FIND_REPLACE_DATA)
    (i : Nat) :
    (GetCompareFlags W d).testBit i
      = (decide (i < 32) && (d.m_Flags.testBit i && !((nonCompareFlags W).testBit i))) := by
  unfold GetCompareFlags FR_MASK_NON_COMPARE_FLAGS GetFlags
  rw [Nat.testBit_mod_two_pow, Nat.testBit_and, testBit_bitNot32]
  by_cases h : i < 32 <;> simp [h, nonCompareFlags]

theorem and_eq_zero_of_part (r m x : Nat)
    (hr : ∀ i, r.testBit i = true → m.testBit i = false)
    (hx : ∀ i, x.testBit i = true → m.testBit i = true) : r &&& x = 0 := by
  apply Nat.eq_of_testBit_eq
  intro i
  rw [Nat.testBit_and, Nat.zero_testBit]
  cases hri : r.testBit i
  · simp
  · cases hxi : x.testBit i
    · simp
    · have h1 := hr i hri
      have h2 := hx i hxi
      rw [h1] at h2
      exact absurd h2 (by decide)

theorem set_keeps_other (f a b : Nat) (h : a &&& b = 0) : (f ||| a) &&& b = f &&& b := by
  apply Nat.eq_of_testBit_eq
  intro i
  have hi : (a &&& b).testBit i = false := by rw [h, Nat.zero_testBit]
  rw [Nat.testBit_and] at hi
  rw [Nat.testBit_and, Nat.testBit_or, Nat.testBit_and]
  cases hf : f.testBit i <;> cases ha : a.testBit i <;> cases hb : b.testBit i <;>
    simp_all

theorem clear_keeps_other (f a b : Nat) (h : bitNot32 a &&& b = b) :
    (f &&& bitNot32 a) &&& b = f &&& b := by
  rw [Nat.and_assoc, h]

theorem eq_wxFlags (W : WxFindReplaceFlags) (hD : W.wxFR_DOWN = 0x1)
    (hW : W.wxFR_WHOLEWORD = 0x2) (hM : W.wxFR_MATCHCASE = 0x4) : W = wxFlags := by
  cases W
  simp_all [wxFlags]

/-! ## The flags as bit masks -/

/-- C12: with the wxWidgets values `wxFR_DOWN = 0x1`, `wxFR_WHOLEWORD = 0x2` and
`wxFR_MATCHCASE = 0x4`, each of the eight `SchematicFindReplaceFlags` is a single bit of
a 32-bit word, the eight are pairwise disjoint, none overlaps a wxWidgets flag, and for
two different flags among the eleven, setting or clearing the first in any flags word
leaves the test of the second unchanged. -/
theorem flags_are_disjoint_bits (W : WxFindReplaceFlags) (hD : W.wxFR_DOWN = 0x1)
    (hW : W.wxFR_WHOLEWORD = 0x2) (hM : W.wxFR_MATCHCASE = 0x4) :
    (∀ x ∈ schematicFindReplaceFlags W, ∃ k, k < 32 ∧ x = 2 ^ k)
    ∧ (schematicFindReplaceFlags W).Pairwise (fun a b => a &&& b = 0)
    ∧ (∀ x ∈ schematicFindReplaceFlags W, ∀ y ∈ wxFindReplaceFlags W, x &&& y = 0)
    ∧ (∀ f a b, a ∈ schematicFindReplaceFlags W ++ wxFindReplaceFlags W →
        b ∈ schematicFindReplaceFlags W ++ wxFindReplaceFlags W → a ≠ b →
        (f ||| a) &&& b = f &&& b ∧ (f &&& bitNot32 a) &&& b = f &&& b) := by
  rw [eq_wxFlags W hD hW hM]
  refine ⟨by decide, by decide, by decide, ?_⟩
  have key : ∀ a ∈ schematicFindReplaceFlags wxFlags ++ wxFindReplaceFlags wxFlags,
      ∀ b ∈ schematicFindReplaceFlags wxFlags ++ wxFindReplaceFlags wxFlags,
      a ≠ b → a &&& b = 0 ∧ bitNot32 a &&& b = b := by
    decide
  intro f a b ha hb hab
  obtain ⟨h1, h2⟩ := key a ha b hb hab
  exact ⟨set_keeps_other f a b h1, clear_keeps_other f a b h2⟩

/-- Witness for C12: the wxWidgets values satisfy the three hypotheses, and the eight
flags are the bits 3, 4, 5, 6, 7, 9, 10 and 11. -/
theorem flags_are_disjoint_bits_witness :
    wxFlags.wxFR_DOWN = 0x1 ∧ wxFlags.wxFR_WHOLEWORD = 0x2 ∧ wxFlags.wxFR_MATCHCASE = 0x4
    ∧ schematicFindReplaceFlags wxFlags = [0x8, 0x10, 0x20, 0x40, 0x80, 0x200, 0x400, 0x800]
    ∧ (schematicFindReplaceFlags wxFlags).Pairwise (fun a b => a &&& b = 0) :=
  ⟨rfl, rfl, rfl, by decide, (flags_are_disjoint_bits wxFlags rfl rfl rfl).2.1⟩

/-! ## The compare flags -/

/-- C13: for every flags word, `GetCompareFlags` has `wxFR_DOWN`, `FR_SEARCH_WRAP` and
`FR_REPLACE_ITEM_FOUND` cleared and every other bit of the 32-bit word equal to the bit
of the flags; two flags words that agree on every bit outside those three flags have
equal compare flags; and taking the compare flags of the compare flags changes
nothing.  With the wxWidgets values the mask is `0xFFFFFB7E`. -/
theorem GetCompareFlags_masks (W : WxFindReplaceFlags) (d e : SCH_FIND_REPLACE_DATA) :
    GetCompareFlags W d &&& W.wxFR_DOWN = 0
    ∧ GetCompareFlags W d &&& FR_SEARCH_WRAP W = 0
    ∧ GetCompareFlags W d &&& FR_REPLACE_ITEM_FOUND W = 0
    ∧ (∀ i, i < 32 → (nonCompareFlags W).testBit i = false →
        (GetCompareFlags W d).testBit i = d.m_Flags.testBit i)
    ∧ ((∀ i, i < 32 → (nonCompareFlags W).testBit i = false →
          d.m_Flags.testBit i = e.m_Flags.testBit i) →
        GetCompareFlags W d = GetCompareFlags W e)
    ∧ GetCompareFlags W { d with m_Flags := GetCompareFlags W d } = GetCompareFlags W d
    ∧ FR_MASK_NON_COMPARE_FLAGS wxFlags = 0xFFFFFB7E := by
  have hr : ∀ i, (GetCompareFlags W d).testBit i = true →
      (nonCompareFlags W).testBit i = false := by
    intro i h
    rw [testBit_GetCompareFlags] at h
    cases hm : (nonCompareFlags W).testBit i
    · rfl
    · rw [hm] at h
      simp at h
  have hparts : ∀ i, (nonCompareFlags W).testBit i
      = (W.wxFR_DOWN.testBit i || (FR_SEARCH_WRAP W).testBit i
          || (FR_REPLACE_ITEM_FOUND W).testBit i) := by
    intro i
    simp [nonCompareFlags]
  refine ⟨?_, ?_, ?_, ?_, ?_, ?_, by decide⟩
  · refine and_eq_zero_of_part _ _ _ hr ?_
    intro i hi
    rw [hparts, hi]
    rfl
  · refine and_eq_zero_of_part _ _ _ hr ?_
    intro i hi
    rw [hparts, hi]
    simp
  · refine and_eq_zero_of_part _ _ _ hr ?_
    intro i hi
    rw [hparts, hi]
    simp
  · intro i hi hm
    rw [testBit_GetCompareFlags, hm]
    simp [hi]
  · intro h
    apply Nat.eq_of_testBit_eq
    intro i
    rw [testBit_GetCompareFlags, testBit_GetCompareFlags]
    by_cases hi : i < 32
    · cases hm : (nonCompareFlags W).testBit i
      · rw [h i hi hm]
      · simp
    · simp [hi]
  · apply Nat.eq_of_testBit_eq
    intro i
    rw [testBit_GetCompareFlags W { d with m_Flags := GetCompareFlags W d }]
    show (decide (i < 32) && ((GetCompareFlags W d).testBit i
      && !((nonCompareFlags W).testBit i))) = _
    rw [testBit_GetCompareFlags]
    cases decide (i < 32) <;> cases d.m_Flags.testBit i <;>
      cases (nonCompareFlags W).testBit i <;> rfl

/-! ## Comparison and assignment of `SCH_FIND_REPLACE_DATA` -/

/-- C15: `operator ==` holds exactly when the full flags words, the find strings and the
replace strings are equal; two objects with equal strings whose flags words differ
compare unequal even when their compare flags are equal; `operator !=` is the negation
of `operator ==`; and after the assignment `a = b`, `a == b` holds. -/
theorem operator_eq_compares_raw_flags (W : WxFindReplaceFlags)
    (a b : SCH_FIND_REPLACE_DATA) (sameObject : Bool)
    (hb : b.m_Flags < 2 ^ 32) (hs : sameObject = true → a = b) :
    (operator_eq a b = true ↔
      (GetFlags a = GetFlags b ∧ GetFindString a = GetFindString b
        ∧ GetReplaceString a = GetReplaceString b))
    ∧ (GetFindString a = GetFindString b → GetReplaceString a = GetReplaceString b →
        GetFlags a ≠ GetFlags b → GetCompareFlags W a = GetCompareFlags W b →
        operator_eq a b = false)
    ∧ operator_ne a b = !(operator_eq a b)
    ∧ operator_eq (operator_assign a b sameObject) b = true := by
  refine ⟨?_, ?_, rfl, ?_⟩
  · simp [operator_eq, and_assoc]
  · intro _ _ hf _
    simp [operator_eq, hf]
  · cases hso : sameObject
    · have hmod : b.m_Flags % 2 ^ 32 = b.m_Flags := Nat.mod_eq_of_lt hb
      simp only [operator_assign, operator_eq, SetFlags, SetFindString, SetReplaceString,
        GetFlags, GetFindString, GetReplaceString, hmod]
      simp
    · rw [hs hso]
      simp [operator_assign, operator_eq]

/-- Witness for C15 with the wxWidgets values: two objects with the same strings whose
flags differ only in `wxFR_DOWN` have equal compare flags and compare unequal, and
assigning the second to the first makes them compare equal. -/
theorem operator_eq_compares_raw_flags_witness :
    (0x9 : Nat) < 2 ^ 32
    ∧ GetCompareFlags wxFlags { m_Flags := 0x8, m_FindWhat := "R1", m_ReplaceWith := "R2" }
        = GetCompareFlags wxFlags { m_Flags := 0x9, m_FindWhat := "R1", m_ReplaceWith := "R2" }
    ∧ operator_eq { m_Flags := 0x8, m_FindWhat := "R1", m_ReplaceWith := "R2" }
        { m_Flags := 0x9, m_FindWhat := "R1", m_ReplaceWith := "R2" } = false
    ∧ operator_eq
        (operator_assign { m_Flags := 0x8, m_FindWhat := "R1", m_ReplaceWith := "R2" }
          { m_Flags := 0x9, m_FindWhat := "R1", m_ReplaceWith := "R2" } false)
        { m_Flags := 0x9, m_FindWhat := "R1", m_ReplaceWith := "R2" } = true :=
  ⟨by decide, by decide,
    (operator_eq_compares_raw_flags wxFlags
      { m_Flags := 0x8, m_FindWhat := "R1", m_ReplaceWith := "R2" }
      { m_Flags := 0x9, m_FindWhat := "R1", m_ReplaceWith := "R2" } false
      (by decide) (by decide)).2.1 rfl rfl (by decide) (by decide),
    (operator_eq_compares_raw_flags wxFlags
      { m_Flags := 0x8, m_FindWhat := "R1", m_ReplaceWith := "R2" }
      { m_Flags := 0x9, m_FindWhat := "R1", m_ReplaceWith := "R2" } false
      (by decide) (by decide)).2.2.2⟩

end SchFind
